import Mathlib

/-!
# KosmoKorn: deterministic planet-generation engine, shallowly embedded

This development embeds the core of the KosmoKorn virtual-pet-planet
application:

* the `seedrandom` string-seeded PRNG (the ARC4-based implementation the
  repository imports and relies on for all determinism claims),
* the `PlanetGenerator` class of `src/services/planetGenerator.ts`
  (stage/attribute/event/satellite/lifeform synthesis),
* the per-face terrain synthesis of `createGlobe` in
  `src/utils/planetFactory.ts` (noise displacement, mutation influence
  fields, face colouring), and
* the biome-index computations of the three rendering consumers.

Numbers: JavaScript numbers are modelled exactly, as `ℚ` where the source
only performs field operations, `min`/`max` and floors on them, and as `ℝ`
where the source applies `Math.sin`, `Math.sqrt` or `Math.acos`.  The
`seedrandom` double construction is exact dyadic arithmetic (all
intermediate values fit in IEEE doubles), so its `ℚ` model agrees with the
JavaScript semantics.  Mutable PRNG closures (`rng: () => number`) become
explicit state passing of the ARC4 state.
-/

namespace Kosmokorn

/-! ## seedrandom: the ARC4-based PRNG

`seedrandom(seed)` builds an ARC4 keystream generator from the seed
string's character codes and returns a closure producing doubles in
`[0,1)`.  The 256-byte permutation array `S` is packed here as a base-256
natural number whose digit `k` is `s[k]`; `aGet`/`aSet` are the array
reads/writes. -/

/-- ARC4 state: the 256-byte permutation array `s` (packed base-256,
digit `k` = `s[k]`) plus the generator indices `me.i`, `me.j`. -/
structure ArcState where
  S : Nat
  i : Nat
  j : Nat
deriving Repr, DecidableEq

/-- Read byte `k` of the packed array: `s[k]`. -/
def aGet (S k : Nat) : Nat := (S >>> (8 * k)) &&& 255

/-- Write byte `k` of the packed array: `s[k] = v` (used with `v < 256`). -/
def aSet (S k v : Nat) : Nat := S - (aGet S k) <<< (8 * k) + v <<< (8 * k)

/-- Key bytes of a seed string.  For seeds shorter than 256 characters
seedrandom's `mixkey` reduces to taking each UTF-16 code unit mod 256:
its `smear` accumulator stays 0 because every `key[mask & j]` cell is
still unset (`undefined`, i.e. 0 after `ToInt32`) when read.  All seeds
this repository builds are far shorter than 256 characters. -/
def keyOfString (s : String) : List Nat :=
  s.data.map (fun c => c.toNat % 256)

/-- One step of ARC4 key scheduling:
`s[i] = s[j = mask & (j + key[i % keylen] + (t = s[i]))]; s[j] = t`. -/
def ksaStep (key : List Nat) (sj : Nat × Nat) (i : Nat) : Nat × Nat :=
  let S := sj.1
  let t := aGet S i
  let j' := (sj.2 + key.getD (i % key.length) 0 + t) % 256
  (aSet (aSet S i (aGet S j')) j' t, j')

/-- The identity permutation `while (i < width) { s[i] = i++; }`, packed. -/
def identityPerm : Nat :=
  (List.range 256).foldl (fun acc i => acc + i <<< (8 * i)) 0

/-- ARC4 construction from a key (`new ARC4(key)` before the drop):
the empty key is treated as `[0]`, then the 256 key-scheduling swaps run;
the generator indices `me.i`, `me.j` start at 0. -/
def arcInit (key0 : List Nat) : ArcState :=
  let key := if key0.isEmpty then [0] else key0
  let Sj := (List.range 256).foldl (ksaStep key) (identityPerm, 0)
  ⟨Sj.1, 0, 0⟩

/-- The body of ARC4's `g(count)` loop (one keystream byte appended to the
accumulator `r`):
`t = s[i = mask & (i + 1)];
 r = r * width + s[mask & ((s[i] = s[j = mask & (j + t)]) + (s[j] = t))]`. -/
def gStep (acc : ArcState × Nat) (_k : Nat) : ArcState × Nat :=
  let st := acc.1
  let i' := (st.i + 1) % 256
  let t := aGet st.S i'
  let j' := (st.j + t) % 256
  let a := aGet st.S j'
  let S' := aSet (aSet st.S i' a) j' t
  (⟨S', i', j'⟩, acc.2 * 256 + aGet S' ((a + t) % 256))

/-- ARC4 `g(count)`: the next `count` keystream bytes as one number,
together with the advanced state. -/
def arcG (count : Nat) (st : ArcState) : Nat × ArcState :=
  let r := (List.range count).foldl gStep (st, 0)
  (r.2, r.1)

/-- `seedrandom(seed)`: ARC4 keyed by the seed's bytes, with an initial
batch of `width` keystream bytes discarded (RC4-drop[256], the
`(me.g = function(count) {...})(width)` call in the constructor). -/
def seedrandom (seed : String) : ArcState :=
  (arcG 256 (arcInit (keyOfString seed))).2

/-- `chunks = 6`: 48 bits are gathered per double at first. -/
def chunks : Nat := 6

/-- `significance = 2^52`. -/
def significance : Nat := 2 ^ 52

/-- `overflow = 2^53`. -/
def overflow : Nat := 2 ^ 53

/-- `startdenom = width^chunks = 256^6`. -/
def startdenom : Nat := 256 ^ 6

/-- First `while` of seedrandom's `prng`:
`while (n < significance) { n = (n + x) * width; d *= width; x = arc4.g(1); }`,
with explicit fuel.  Each pass multiplies `n + x` by 256, so 64 passes
always suffice unless the keystream is identically zero (which ARC4 never
produces); on fuel exhaustion the current state is returned. -/
def prngLoop1 : Nat → Nat → Nat → Nat → ArcState → Nat × Nat × Nat × ArcState
  | 0, n, d, x, st => (n, d, x, st)
  | fuel + 1, n, d, x, st =>
    if n < significance then
      let gx := arcG 1 st
      prngLoop1 fuel ((n + x) * 256) (d * 256) gx.1 gx.2
    else (n, d, x, st)

/-- Second `while` of `prng`:
`while (n >= overflow) { n /= 2; d /= 2; x >>>= 1; }`.
`n` and `d` become exact dyadic rationals; at most 8 passes are ever
needed since `n < 2^61` on entry. -/
def prngLoop2 : Nat → ℚ → ℚ → Nat → ℚ × ℚ × Nat
  | 0, n, d, x => (n, d, x)
  | fuel + 1, n, d, x =>
    if (overflow : ℚ) ≤ n then prngLoop2 fuel (n / 2) (d / 2) (x / 2) else (n, d, x)

/-- One call of the `prng` closure returned by `seedrandom`: gather 48
bits, top up to at least 52 significant bits, renormalize below `2^53`,
and return `(n + x) / d` together with the advanced ARC4 state. -/
def prngNext (st : ArcState) : ℚ × ArcState :=
  let g6 := arcG chunks st
  let l1 := prngLoop1 64 g6.1 startdenom 0 g6.2
  let l2 := prngLoop2 64 (l1.1 : ℚ) (l1.2.1 : ℚ) l1.2.2.1
  ((l2.1 + (l2.2.2 : ℚ)) / l2.2.1, l1.2.2.2)

/-- The `n`-th value (0-indexed) of the stream started at `st`. -/
def drawsFrom (st : ArcState) : Nat → ℚ
  | 0 => (prngNext st).1
  | n + 1 => drawsFrom (prngNext st).2 n

/-- The `n`-th value (0-indexed) drawn from `seedrandom seed`. -/
def nthDrawOf (seed : String) (n : Nat) : ℚ :=
  drawsFrom (seedrandom seed) n

/-! ### Range of the PRNG output

`prng` always returns a rational in `[0,1)`: the invariant `n + x < d`
(with `d > 0`) is set up by the 48-bit gather and preserved by both
loops. -/

theorem aGet_le (S k : Nat) : aGet S k ≤ 255 :=
  Nat.and_le_right

theorem gStep_snd_lt (acc : ArcState × Nat) (k : Nat) :
    (gStep acc k).2 < (acc.2 + 1) * 256 := by
  have h := aGet_le
    (aSet (aSet acc.1.S ((acc.1.i + 1) % 256) (aGet acc.1.S ((acc.1.j + aGet acc.1.S ((acc.1.i + 1) % 256)) % 256))) ((acc.1.j + aGet acc.1.S ((acc.1.i + 1) % 256)) % 256) (aGet acc.1.S ((acc.1.i + 1) % 256)))
    ((aGet acc.1.S ((acc.1.j + aGet acc.1.S ((acc.1.i + 1) % 256)) % 256) + aGet acc.1.S ((acc.1.i + 1) % 256)) % 256)
  simp only [gStep]
  omega

theorem foldl_gStep_lt (l : List Nat) (acc : ArcState × Nat) :
    (l.foldl gStep acc).2 < (acc.2 + 1) * 256 ^ l.length := by
  induction l generalizing acc with
  | nil => simp
  | cons a l ih =>
    have h1 := gStep_snd_lt acc a
    have h2 := ih (gStep acc a)
    have h3 : ((gStep acc a).2 + 1) ≤ (acc.2 + 1) * 256 := h1
    calc (l.foldl gStep (gStep acc a)).2
        < ((gStep acc a).2 + 1) * 256 ^ l.length := h2
      _ ≤ (acc.2 + 1) * 256 * 256 ^ l.length :=
          Nat.mul_le_mul_right _ h3
      _ = (acc.2 + 1) * 256 ^ (a :: l).length := by
          rw [List.length_cons, pow_succ]; ring

theorem arcG_fst_lt (count : Nat) (st : ArcState) :
    (arcG count st).1 < 256 ^ count := by
  have h := foldl_gStep_lt (List.range count) (st, 0)
  simpa [arcG] using h

/-- Invariant through the first `prng` loop: `n + x < d` is preserved
(numbers stay natural). -/
theorem prngLoop1_invariant (fuel : Nat) :
    ∀ (n d x : Nat) (st : ArcState), n + x < d → x < 256 →
      (prngLoop1 fuel n d x st).1 + (prngLoop1 fuel n d x st).2.2.1 <
        (prngLoop1 fuel n d x st).2.1 := by
  induction fuel with
  | zero => intro n d x st h _; simpa [prngLoop1] using h
  | succ fuel ih =>
    intro n d x st h hx
    rw [prngLoop1]
    by_cases hn : n < significance
    · simp only [hn, if_true]
      apply ih
      · have hg := arcG_fst_lt 1 st
        have : n + x + 1 ≤ d := h
        have : (n + x) * 256 + 256 ≤ d * 256 := by omega
        have hg' : (arcG 1 st).1 < 256 := by simpa using hg
        omega
      · simpa using arcG_fst_lt 1 st
    · simpa [hn] using h

/-- Invariant through the second `prng` loop: `0 ≤ n`, `0 < d` and
`n + x < d` are preserved by the halvings. -/
theorem prngLoop2_invariant (fuel : Nat) :
    ∀ (n d : ℚ) (x : Nat), 0 ≤ n → 0 < d → n + (x : ℚ) < d →
      0 ≤ (prngLoop2 fuel n d x).1 ∧ 0 < (prngLoop2 fuel n d x).2.1 ∧
        (prngLoop2 fuel n d x).1 + ((prngLoop2 fuel n d x).2.2 : ℚ) <
          (prngLoop2 fuel n d x).2.1 := by
  induction fuel with
  | zero => intro n d x hn hd h; exact ⟨hn, hd, h⟩
  | succ fuel ih =>
    intro n d x hn hd h
    rw [prngLoop2]
    by_cases ho : (overflow : ℚ) ≤ n
    · simp only [ho, if_true]
      apply ih
      · positivity
      · positivity
      · have hx : ((x / 2 : Nat) : ℚ) ≤ (x : ℚ) / 2 := by
          have := Nat.div_mul_le_self x 2
          have h2 : ((x / 2 : Nat) : ℚ) * 2 ≤ (x : ℚ) := by
            exact_mod_cast this
          linarith
        linarith
    · simpa [ho] using ⟨hn, hd, h⟩

/-- Every value produced by seedrandom's `prng` lies in `[0,1)`. -/
theorem prngNext_mem_Ico (st : ArcState) :
    0 ≤ (prngNext st).1 ∧ (prngNext st).1 < 1 := by
  have h0 : (arcG chunks st).1 + 0 < startdenom := by
    have := arcG_fst_lt chunks st
    simpa [startdenom, chunks] using this
  have h1 := prngLoop1_invariant 64 (arcG chunks st).1 startdenom 0
    (arcG chunks st).2 h0 (by norm_num)
  set l1 := prngLoop1 64 (arcG chunks st).1 startdenom 0 (arcG chunks st).2 with hl1
  have hd1 : 0 < l1.2.1 := by omega
  have h2 := prngLoop2_invariant 64 (l1.1 : ℚ) (l1.2.1 : ℚ) l1.2.2.1
    (by positivity) (by exact_mod_cast hd1) (by exact_mod_cast h1)
  set l2 := prngLoop2 64 (l1.1 : ℚ) (l1.2.1 : ℚ) l1.2.2.1 with hl2
  obtain ⟨hn2, hd2, hlt2⟩ := h2
  constructor
  · show 0 ≤ (l2.1 + (l2.2.2 : ℚ)) / l2.2.1
    have hx2 : (0 : ℚ) ≤ (l2.2.2 : ℚ) := by positivity
    positivity
  · show (l2.1 + (l2.2.2 : ℚ)) / l2.2.1 < 1
    rw [div_lt_one hd2]
    exact hlt2

theorem prngNext_nonneg (st : ArcState) : 0 ≤ (prngNext st).1 :=
  (prngNext_mem_Ico st).1

theorem prngNext_lt_one (st : ArcState) : (prngNext st).1 < 1 :=
  (prngNext_mem_Ico st).2

/-! ## Data model and configuration (`src/types/index.ts`, `src/constants/index.ts`) -/

/-- `PlanetStage`: the six ordered evolutionary tiers. -/
inductive PlanetStage where
  | seed
  | core
  | atmosphere
  | surface
  | life
  | mature
deriving Repr, DecidableEq

/-- `EventType`: the seven cosmic event kinds, in `Object.values` order. -/
inductive EventType where
  | comet
  | solar_flare
  | tectonic
  | volcanic
  | meteor
  | asteroid
  | aurora
deriving Repr, DecidableEq

/-- The string value of each `EventType` enum member (used in template
strings such as the event id). -/
def eventTypeString : EventType → String
  | .comet => "comet"
  | .solar_flare => "solar_flare"
  | .tectonic => "tectonic"
  | .volcanic => "volcanic"
  | .meteor => "meteor"
  | .asteroid => "asteroid"
  | .aurora => "aurora"

/-- `LifeformType`: ordered complexity tiers, in `Object.values` order. -/
inductive LifeformType where
  | microorganism
  | plant
  | animal
  | intelligent
  | advanced
deriving Repr, DecidableEq

/-- `IStageRequirements` (optional fields are absent entries). -/
structure IStageRequirements where
  minDays : Nat
  minTemperature : Option ℚ
  maxTemperature : Option ℚ
  minAtmosphere : Option ℚ
  minWater : Option ℚ
  minLife : Option ℚ
deriving Repr, DecidableEq

/-- The satellite `type` union: `"moon" | "ring" | "debris"`. -/
inductive SatelliteType where
  | moon
  | ring
  | debris
deriving Repr, DecidableEq

/-- `ISatellite`. -/
structure ISatellite where
  id : String
  name : String
  size : ℚ
  distance : ℚ
  color : String
  orbitSpeed : ℚ
  type : SatelliteType
deriving Repr, DecidableEq

/-- `IEventImpact`: the optional per-attribute deltas. -/
structure IEventImpact where
  temperature : Option ℚ
  atmosphere : Option ℚ
  water : Option ℚ
  life : Option ℚ
  radius : Option ℚ
deriving Repr, DecidableEq

/-- `IPlanetEvent`. -/
structure IPlanetEvent where
  id : String
  type : EventType
  title : String
  description : String
  day : Nat
  impact : IEventImpact
  duration : Nat
  probability : ℚ
deriving Repr, DecidableEq

/-- `ILifeform`. -/
structure ILifeform where
  id : String
  type : LifeformType
  name : String
  population : ℤ
  complexity : Nat
  dayAppeared : ℤ
  description : String
deriving Repr, DecidableEq

/-- `IPlanetResources` (energy involves the real-valued temperature). -/
structure IPlanetResources where
  minerals : ℚ
  gases : ℚ
  water : ℚ
  energy : ℝ

/-- `IPlanetEvolution`. -/
structure IPlanetEvolution where
  evolutionPoints : ℤ
  nextStageProgress : ℚ
  stageRequirements : IStageRequirements

/-- `IPlanetData`: the full snapshot. -/
structure IPlanetData where
  seed : String
  currentDay : Nat
  stage : PlanetStage
  color : String
  radius : ℚ
  temperature : ℝ
  atmosphere : ℚ
  water : ℚ
  life : ℚ
  satellites : List ISatellite
  events : List IPlanetEvent
  lifeforms : List ILifeform
  resources : IPlanetResources
  evolution : IPlanetEvolution

/-- `PLANET_GENERATOR_CONFIG`. -/
structure IPlanetGeneratorConfig where
  baseTemperature : ℚ
  temperatureVariation : ℚ
  atmosphereDensity : ℚ
  waterProbability : ℚ
  lifeProbability : ℚ
  eventFrequency : ℚ
  satelliteProbability : ℚ

def PLANET_GENERATOR_CONFIG : IPlanetGeneratorConfig where
  baseTemperature := 273
  temperatureVariation := 200
  atmosphereDensity := 0.5
  waterProbability := 0.3
  lifeProbability := 0.1
  eventFrequency := 0.15
  satelliteProbability := 0.25

/-- `STAGE_REQUIREMENTS`. -/
def STAGE_REQUIREMENTS : PlanetStage → IStageRequirements
  | .seed => ⟨1, none, none, none, none, none⟩
  | .core => ⟨3, some 200, none, none, none, none⟩
  | .atmosphere => ⟨7, some 250, none, some 0.2, none, none⟩
  | .surface => ⟨14, some 200, some 400, some 0.4, some 0.1, none⟩
  | .life => ⟨30, some 250, some 350, some 0.6, some 0.3, some 0.1⟩
  | .mature => ⟨60, some 280, some 320, some 0.8, some 0.5, some 0.5⟩

/-- `STAGE_COLORS`. -/
def STAGE_COLORS : PlanetStage → String
  | .seed => "#9CA3AF"
  | .core => "#F87171"
  | .atmosphere => "#FBBF24"
  | .surface => "#34D399"
  | .life => "#60A5FA"
  | .mature => "#A78BFA"

/-- `STAGE_SIZES`. -/
def STAGE_SIZES : PlanetStage → ℚ
  | .seed => 0.1
  | .core => 0.3
  | .atmosphere => 0.5
  | .surface => 0.7
  | .life => 0.9
  | .mature => 1.0

/-- `EVENT_PROBABILITIES`. -/
structure EventProbabilities where
  early : ℚ
  middle : ℚ
  late : ℚ

def EVENT_PROBABILITIES : EventProbabilities where
  early := 0.1
  middle := 0.15
  late := 0.2

/-- `EVENT_NAMES`. -/
def EVENT_NAMES : EventType → List String
  | .comet => ["Комета Хейла-Боппа", "Комета Галлея", "Малая комета", "Ледяной странник"]
  | .solar_flare => ["Солнечная буря", "Магнитная буря", "Корональный выброс", "Солнечный ветер"]
  | .tectonic => ["Тектонический сдвиг", "Землетрясение", "Горообразование", "Разлом коры"]
  | .volcanic => ["Супервулкан", "Извержение вулкана", "Лавовые потоки", "Вулканическая зима"]
  | .meteor => ["Метеоритный дождь", "Астероид", "Космический камень", "Падающая звезда"]
  | .asteroid => ["Крупный астероид", "Каменный гигант", "Космическая глыба", "Железный астероид"]
  | .aurora => ["Северное сияние", "Магнитное свечение", "Плазменные танцы", "Световая завеса"]

/-! ## PlanetGenerator (`src/services/planetGenerator.ts`)

The class instance carries the seed string and the instance-level stream
`this.rng = seedrandom(seed)`; the mutable `rng: () => number` closures
become explicit `ArcState` threading.  `Math.floor` on a rational is
`Int.floor` (`.toNat` where the result indexes an array and is
nonnegative because the draw is). -/

/-- The `PlanetGenerator` instance: `this.seed` and `this.rng`. -/
structure PlanetGenerator where
  seed : String
  rng : ArcState
deriving Repr, DecidableEq

/-- `new PlanetGenerator(seed)`. -/
def newPlanetGenerator (seed : String) : PlanetGenerator :=
  ⟨seed, seedrandom seed⟩

/-- The local `stages` array (ascending order), shared by
`calculateStage` and `getNextStage`. -/
def stagesList : List PlanetStage :=
  [.seed, .core, .atmosphere, .surface, .life, .mature]

/-- `calculateStage`: iterate `stages` from index `length-1` down to 0 and
return the first stage with `day >= requirements.minDays`, else `"seed"`. -/
def calculateStage (day : Nat) : PlanetStage :=
  (stagesList.reverse.find? fun stage =>
    decide ((STAGE_REQUIREMENTS stage).minDays ≤ day)).getD .seed

/-- `calculateRadius` (draws from the instance-level stream `this.rng`). -/
def calculateRadius (stage : PlanetStage) (rng : ArcState) : ℚ × ArcState :=
  let baseSize := STAGE_SIZES stage
  let variation : ℚ := 0.2
  let q := prngNext rng
  let randomFactor := 1 + (q.1 - 0.5) * variation
  (max 0.1 (baseSize * randomFactor), q.2)

/-- The `variations` array of `calculateColor`: the stage base colour
followed by the per-stage pushes. -/
def colorVariations (stage : PlanetStage) : List String :=
  STAGE_COLORS stage ::
    (match stage with
      | .seed => ["#4B5563", "#6B7280", "#9CA3AF"]
      | .core => ["#DC2626", "#EF4444", "#F87171"]
      | .atmosphere => ["#F59E0B", "#FBBF24", "#FCD34D"]
      | .surface => ["#059669", "#10B981", "#34D399"]
      | .life => ["#3B82F6", "#60A5FA", "#93C5FD"]
      | .mature => ["#8B5CF6", "#A78BFA", "#C4B5FD"])

/-- `calculateColor`. -/
def calculateColor (stage : PlanetStage) (rng : ArcState) : String × ArcState :=
  let variations := colorVariations stage
  let q := prngNext rng
  (variations.getD (Int.toNat ⌊q.1 * variations.length⌋) "", q.2)

/-- `calculateTemperature`:
`Math.max(50, baseTemp + Math.sin(day * 0.1) * 50 + (rng() - 0.5) * variation)`. -/
noncomputable def calculateTemperature (day : Nat) (rng : ArcState) : ℝ × ArcState :=
  let baseTemp : ℝ := (PLANET_GENERATOR_CONFIG.baseTemperature : ℚ)
  let variation : ℝ := (PLANET_GENERATOR_CONFIG.temperatureVariation : ℚ)
  let timeEffect := Real.sin ((day : ℝ) * 0.1) * 50
  let q := prngNext rng
  let randomEffect := ((q.1 : ℝ) - 0.5) * variation
  (max 50 (baseTemp + timeEffect + randomEffect), q.2)

/-- `calculateAtmosphere`. -/
def calculateAtmosphere (day : Nat) (stage : PlanetStage) (rng : ArcState) :
    ℚ × ArcState :=
  let baseAtmosphere : ℚ :=
    match stage with
      | .seed => 0
      | .core => 0
      | .atmosphere => 0.3
      | .surface => 0.6
      | .life => 0.8
      | .mature => 1.0
  let dayEffect : ℚ := min ((day : ℚ) * 0.01) 0.5
  let q := prngNext rng
  let randomEffect := q.1 * 0.2
  (min 1 (max 0 (baseAtmosphere + dayEffect + randomEffect)), q.2)

/-- `calculateWater` (seed/core return 0 before any draw; a failed
`waterProbability` roll returns exactly 0). -/
def calculateWater (day : Nat) (stage : PlanetStage) (rng : ArcState) :
    ℚ × ArcState :=
  if stage = .seed ∨ stage = .core then (0, rng) else
    let roll := prngNext rng
    let hasWater := roll.1 < PLANET_GENERATOR_CONFIG.waterProbability
    if ¬hasWater then (0, roll.2) else
      let baseWater : ℚ :=
        match stage with
          | .atmosphere => 0.1
          | .surface => 0.4
          | .life => 0.7
          | .mature => 0.8
          | _ => 0
      let dayEffect : ℚ := min ((day : ℚ) * 0.005) 0.3
      let q := prngNext roll.2
      let randomEffect := q.1 * 0.3
      (min 1 (baseWater + dayEffect + randomEffect), q.2)

/-- `calculateLife` (stages other than life/mature return 0 before any
draw; a failed `lifeProbability` roll returns exactly 0). -/
def calculateLife (day : Nat) (stage : PlanetStage) (rng : ArcState) :
    ℚ × ArcState :=
  if stage ≠ .life ∧ stage ≠ .mature then (0, rng) else
    let roll := prngNext rng
    let hasLife := roll.1 < PLANET_GENERATOR_CONFIG.lifeProbability
    if ¬hasLife then (0, roll.2) else
      let baseLife : ℚ := if stage = .life then 0.3 else 0.8
      let dayEffect : ℚ := min (((day : ℚ) - 30) * 0.01) 0.5
      let q := prngNext roll.2
      let randomEffect := q.1 * 0.2
      (min 1 (max 0 (baseLife + dayEffect + randomEffect)), q.2)

/-- The `names` nested array of `generateSatelliteName`. -/
def satelliteNamePools : List (List String) :=
  [["Луна", "Селена", "Диана", "Артемида"],
   ["Фобос", "Деймос", "Титан", "Европа"],
   ["Ио", "Каллисто", "Ганимед", "Энцелад"]]

/-- `generateSatelliteName` (`names[index] || names[0]`). -/
def generateSatelliteName (index : Nat) (rng : ArcState) : String × ArcState :=
  let nameSet := satelliteNamePools.getD index (satelliteNamePools.getD 0 [])
  let q := prngNext rng
  (nameSet.getD (Int.toNat ⌊q.1 * nameSet.length⌋) "", q.2)

/-- `generateSatelliteColor`. -/
def generateSatelliteColor (rng : ArcState) : String × ArcState :=
  let colors := ["#9CA3AF", "#6B7280", "#4B5563", "#D1D5DB", "#F3F4F6"]
  let q := prngNext rng
  (colors.getD (Int.toNat ⌊q.1 * colors.length⌋) "", q.2)

/-- `generateSatelliteType` (70% moon, 20% ring, 10% debris). -/
def generateSatelliteType (rng : ArcState) : SatelliteType × ArcState :=
  let q := prngNext rng
  (if q.1 < 0.7 then .moon else if q.1 < 0.9 then .ring else .debris, q.2)

/-- One pass of the `generateSatellites` loop (slot `i`): the probability
roll is always drawn (it is the left operand of `&&`), the slot is filled
only when the roll succeeds and `day > i * 10`. -/
def satelliteSlot (day : Nat) (acc : List ISatellite × ArcState) (i : Nat) :
    List ISatellite × ArcState :=
  let roll := prngNext acc.2
  if roll.1 < PLANET_GENERATOR_CONFIG.satelliteProbability ∧ day > i * 10 then
    let name := generateSatelliteName i roll.2
    let size := prngNext name.2
    let distance := prngNext size.2
    let color := generateSatelliteColor distance.2
    let orbitSpeed := prngNext color.2
    let type := generateSatelliteType orbitSpeed.2
    (acc.1 ++ [{ id := "satellite-" ++ Nat.repr i
                 name := name.1
                 size := 0.1 + size.1 * 0.3
                 distance := 2 + (i : ℚ) * 1.5 + distance.1 * 0.5
                 color := color.1
                 orbitSpeed := 1 + orbitSpeed.1 * 2
                 type := type.1 }], type.2)
  else (acc.1, roll.2)

/-- `generateSatellites`: up to 3 slots. -/
def generateSatellites (day : Nat) (rng : ArcState) :
    List ISatellite × ArcState :=
  (List.range 3).foldl (satelliteSlot day) ([], rng)

/-- The `eventTypes` array: `Object.values(EventType)`. -/
def eventTypesList : List EventType :=
  [.comet, .solar_flare, .tectonic, .volcanic, .meteor, .asteroid, .aurora]

/-- `generateEventDescription`. -/
def generateEventDescription (type : EventType) (rng : ArcState) :
    String × ArcState :=
  let typeDescriptions : List String :=
    match type with
      | .comet =>
        ["Яркая комета пролетает рядом с планетой",
         "Ледяной странник приносит воду и органику",
         "Хвост кометы освещает небо планеты"]
      | .solar_flare =>
        ["Солнечная буря достигает планеты",
         "Магнитное поле планеты испытывает возмущения",
         "Корональный выброс влияет на атмосферу"]
      | .tectonic =>
        ["Тектонические плиты смещаются",
         "Мощное землетрясение меняет ландшафт",
         "Формируются новые горные хребты"]
      | .volcanic =>
        ["Супервулкан извергается",
         "Лава формирует новые земли",
         "Пепел временно закрывает солнце"]
      | .meteor =>
        ["Метеоритный дождь падает на планету",
         "Крупный метеор оставляет кратер",
         "Космические камни приносят редкие минералы"]
      | .asteroid =>
        ["Крупный астероид пролетает мимо",
         "Гравитация астероида влияет на приливы",
         "Железный гигант меняет орбиту спутников"]
      | .aurora =>
        ["Северное сияние освещает полюса",
         "Магнитное поле создает световое шоу",
         "Плазменные танцы украшают небо"]
  let q := prngNext rng
  (typeDescriptions.getD (Int.toNat ⌊q.1 * typeDescriptions.length⌋) "", q.2)

/-- An `IEventImpact` with no entries (`const impact: any = {}`). -/
def emptyImpact : IEventImpact := ⟨none, none, none, none, none⟩

/-- `generateEventImpact`: each event type touches its own attributes. -/
def generateEventImpact (type : EventType) (rng : ArcState) :
    IEventImpact × ArcState :=
  match type with
    | .comet =>
      let q1 := prngNext rng
      let q2 := prngNext q1.2
      ({ emptyImpact with water := some ((q1.1 - 0.5) * 0.2),
                          life := some ((q2.1 - 0.5) * 0.1) }, q2.2)
    | .solar_flare =>
      let q1 := prngNext rng
      let q2 := prngNext q1.2
      ({ emptyImpact with temperature := some ((q1.1 - 0.3) * 100),
                          atmosphere := some ((q2.1 - 0.7) * 0.1) }, q2.2)
    | .tectonic =>
      let q1 := prngNext rng
      ({ emptyImpact with radius := some (q1.1 * 0.05) }, q1.2)
    | .volcanic =>
      let q1 := prngNext rng
      let q2 := prngNext q1.2
      ({ emptyImpact with temperature := some (q1.1 * 50),
                          atmosphere := some (q2.1 * 0.1) }, q2.2)
    | .meteor =>
      let q1 := prngNext rng
      ({ emptyImpact with radius := some ((q1.1 - 0.5) * 0.02) }, q1.2)
    | .asteroid =>
      let q1 := prngNext rng
      ({ emptyImpact with radius := some (q1.1 * 0.01) }, q1.2)
    | .aurora =>
      let q1 := prngNext rng
      ({ emptyImpact with life := some (q1.1 * 0.05) }, q1.2)

/-- `generateEvent`: the draws happen in source order — type, title, then
(in the object literal) description, impact, duration and finally the
`probability` field, which is a fresh `rng()` call. -/
def generateEvent (day : Nat) (rng : ArcState) : IPlanetEvent × ArcState :=
  let q1 := prngNext rng
  let type := eventTypesList.getD (Int.toNat ⌊q1.1 * eventTypesList.length⌋) .comet
  let names := EVENT_NAMES type
  let q2 := prngNext q1.2
  let title := names.getD (Int.toNat ⌊q2.1 * names.length⌋) ""
  let description := generateEventDescription type q2.2
  let impact := generateEventImpact type description.2
  let qd := prngNext impact.2
  let qp := prngNext qd.2
  ({ id := "event-" ++ Nat.repr day ++ "-" ++ eventTypeString type
     type := type
     title := title
     description := description.1
     day := day
     impact := impact.1
     duration := Int.toNat ⌊qd.1 * 3⌋ + 1
     probability := qp.1 }, qp.2)

/-- The body of the `generateEventsHistory` loop for one `day`, given the
day's stream `seedrandom(`⟨seed⟩-events-⟨day⟩`)`: pick the day-band
probability, roll once, and synthesize the event when the roll succeeds. -/
def eventRollFor (day : Nat) (dayRng : ArcState) : Option IPlanetEvent :=
  let probability :=
    if day > 30 then EVENT_PROBABILITIES.late
    else if day > 7 then EVENT_PROBABILITIES.middle
    else EVENT_PROBABILITIES.early
  let roll := prngNext dayRng
  if roll.1 < probability then some (generateEvent day roll.2).1 else none

/-- The loop body including the construction of the day's stream. -/
def eventForDay (seed : String) (day : Nat) : Option IPlanetEvent :=
  eventRollFor day (seedrandom (seed ++ "-events-" ++ Nat.repr day))

/-- `generateEventsHistory`: replay days 1..maxDay. -/
def generateEventsHistory (seed : String) (maxDay : Nat) : List IPlanetEvent :=
  (List.range' 1 maxDay).filterMap (eventForDay seed)

/-- `generateLifeformName`. -/
def generateLifeformName (type : LifeformType) (rng : ArcState) :
    String × ArcState :=
  let typeNames : List String :=
    match type with
      | .microorganism => ["Археи", "Бактерии", "Цианобактерии"]
      | .plant => ["Водоросли", "Мхи", "Папоротники", "Деревья"]
      | .animal => ["Простейшие", "Членистоногие", "Рыбы", "Рептилии"]
      | .intelligent => ["Приматы", "Разумные существа", "Цивилизация"]
      | .advanced => ["Высшая раса", "Технологическая цивилизация"]
  let q := prngNext rng
  (typeNames.getD (Int.toNat ⌊q.1 * typeNames.length⌋) "", q.2)

/-- `generateLifeformDescription`. -/
def generateLifeformDescription (type : LifeformType) (rng : ArcState) :
    String × ArcState :=
  let typeDescriptions : List String :=
    match type with
      | .microorganism =>
        ["Простейшие одноклеточные организмы",
         "Основа всей жизни на планете",
         "Первые живые существа в океанах"]
      | .plant =>
        ["Фотосинтезирующие организмы",
         "Производят кислород для атмосферы",
         "Основа пищевых цепей"]
      | .animal =>
        ["Многоклеточные подвижные организмы",
         "Разнообразные формы жизни",
         "Активные потребители энергии"]
      | .intelligent =>
        ["Разумные существа с развитым мозгом",
         "Способны к абстрактному мышлению",
         "Создают инструменты и культуру"]
      | .advanced =>
        ["Высокоразвитая технологическая цивилизация",
         "Освоили космические технологии",
         "Способны изменять свою планету"]
  let q := prngNext rng
  (typeDescriptions.getD (Int.toNat ⌊q.1 * typeDescriptions.length⌋) "", q.2)

/-- The `Object.values(LifeformType)` array. -/
def lifeformTypesList : List LifeformType :=
  [.microorganism, .plant, .animal, .intelligent, .advanced]

/-- `generateLifeform`. -/
def generateLifeform (day index : Nat) (rng : ArcState) :
    ILifeform × ArcState :=
  let type := lifeformTypesList.getD (min index (lifeformTypesList.length - 1))
    .microorganism
  let name := generateLifeformName type rng
  let qp := prngNext name.2
  let qd := prngNext qp.2
  let description := generateLifeformDescription type qd.2
  ({ id := "lifeform-" ++ Nat.repr index
     type := type
     name := name.1
     population := ⌊qp.1 * 1000000⌋ + 1000
     complexity := min (index + 1) 5
     dayAppeared := max 1 ((day : ℤ) - ⌊qd.1 * 20⌋)
     description := description.1 }, description.2)

/-- One pass of the `generateLifeforms` loop. -/
def lifeformSlot (day : Nat) (acc : List ILifeform × ArcState) (i : Nat) :
    List ILifeform × ArcState :=
  let roll := prngNext acc.2
  if roll.1 < 0.6 then
    let lf := generateLifeform day i roll.2
    (acc.1 ++ [lf.1], lf.2)
  else (acc.1, roll.2)

/-- `generateLifeforms` (a zero life level returns `[]` with no draw). -/
def generateLifeforms (day : Nat) (lifeLevel : ℚ) (rng : ArcState) :
    List ILifeform × ArcState :=
  if lifeLevel = 0 then ([], rng) else
    let maxLifeforms := min 5 (Int.toNat ⌊lifeLevel * 10⌋)
    (List.range maxLifeforms).foldl (lifeformSlot day) ([], rng)

/-- `calculateMinerals`. -/
def calculateMinerals (day : Nat) (rng : ArcState) : ℚ × ArcState :=
  let q := prngNext rng
  (min 1 ((day : ℚ) * 0.01 + q.1 * 0.3), q.2)

/-- `calculateEnergy` (depends on the real-valued temperature). -/
noncomputable def calculateEnergy (day : Nat) (temperature : ℝ)
    (rng : ArcState) : ℝ × ArcState :=
  let tempFactor := max 0 ((temperature - 200) / 200)
  let q := prngNext rng
  (min 1 (tempFactor + (day : ℝ) * 0.005 + (q.1 : ℝ) * 0.2), q.2)

/-- `calculateEvolutionPoints`: `Math.floor(day * 10 + Math.sqrt(day) * 5)`. -/
noncomputable def calculateEvolutionPoints (day : Nat) : ℤ :=
  ⌊(day : ℝ) * 10 + Real.sqrt (day : ℝ) * 5⌋

/-- `getNextStage`. -/
def getNextStage (currentStage : PlanetStage) : Option PlanetStage :=
  let currentIndex := stagesList.indexOf currentStage
  if currentIndex < stagesList.length - 1 then stagesList.get? (currentIndex + 1)
  else none

/-- `calculateStageProgress`. -/
def calculateStageProgress (day : Nat) (stage : PlanetStage) : ℚ :=
  match getNextStage stage with
    | none => 1
    | some nextStage =>
      min 1 ((day : ℚ) / ((STAGE_REQUIREMENTS nextStage).minDays : ℚ))

/-- `generatePlanetData`: the per-day stream is
`seedrandom(`⟨seed⟩-⟨day⟩`)`; only `calculateRadius` draws from the
instance-level stream, which is threaded into the returned generator.
Draws from the day stream happen in source order: color, temperature,
atmosphere, water, life, satellites, lifeforms, minerals, energy
(`events` uses its own per-day streams). -/
noncomputable def generatePlanetData (g : PlanetGenerator) (day : Nat) :
    IPlanetData × PlanetGenerator :=
  let dayRng := seedrandom (g.seed ++ "-" ++ Nat.repr day)
  let stage := calculateStage day
  let radius := calculateRadius stage g.rng
  let color := calculateColor stage dayRng
  let temperature := calculateTemperature day color.2
  let atmosphere := calculateAtmosphere day stage temperature.2
  let water := calculateWater day stage atmosphere.2
  let life := calculateLife day stage water.2
  let satellites := generateSatellites day life.2
  let events := generateEventsHistory g.seed day
  let lifeforms := generateLifeforms day life.1 satellites.2
  let minerals := calculateMinerals day lifeforms.2
  let energy := calculateEnergy day temperature.1 minerals.2
  ({ seed := g.seed
     currentDay := day
     stage := stage
     color := color.1
     radius := radius.1
     temperature := temperature.1
     atmosphere := atmosphere.1
     water := water.1
     life := life.1
     satellites := satellites.1
     events := events
     lifeforms := lifeforms.1
     resources :=
       { minerals := minerals.1
         gases := atmosphere.1
         water := water.1
         energy := energy.1 }
     evolution :=
       { evolutionPoints := calculateEvolutionPoints day
         nextStageProgress := calculateStageProgress day stage
         stageRequirements := STAGE_REQUIREMENTS ((getNextStage stage).getD stage) } },
   ⟨g.seed, radius.2⟩)

/-! ## Terrain synthesis (`createGlobe` in `src/utils/planetFactory.ts`)

The per-triangle loop of `createGlobe` is embedded as per-vertex and
per-face functions over `ℝ`.  The simplex-noise field `noise3D` is an
arbitrary function parameter (the library guarantees nothing the claims
rely on beyond being a fixed pure function).  Vector operations follow
three.js (`normalize` divides by `length || 1`). -/

section Terrain

open Classical

/-- three.js `Vector3` over `ℝ`. -/
structure Vec3 where
  x : ℝ
  y : ℝ
  z : ℝ

namespace Vec3

def add (a b : Vec3) : Vec3 := ⟨a.x + b.x, a.y + b.y, a.z + b.z⟩

/-- `multiplyScalar`. -/
def scale (a : Vec3) (s : ℝ) : Vec3 := ⟨a.x * s, a.y * s, a.z * s⟩

/-- `addScalar`. -/
def addScalar (a : Vec3) (s : ℝ) : Vec3 := ⟨a.x + s, a.y + s, a.z + s⟩

def dot (a b : Vec3) : ℝ := a.x * b.x + a.y * b.y + a.z * b.z

noncomputable def length (a : Vec3) : ℝ :=
  Real.sqrt (a.x * a.x + a.y * a.y + a.z * a.z)

/-- three.js `normalize`: `divideScalar(length || 1)`. -/
noncomputable def normalize (a : Vec3) : Vec3 :=
  a.scale (1 / (if a.length = 0 then 1 else a.length))

end Vec3

/-- `NoiseConfig`. -/
structure NoiseConfig where
  noiseF : ℝ
  noiseD : ℝ
  noiseWaterTreshold : ℝ
  noiseWaterLevel : ℝ

/-- The `TerrainMutation` `type` union. -/
inductive MutationType where
  | volcanic
  | meteor
deriving Repr, DecidableEq

/-- `TerrainMutation`. -/
structure TerrainMutation where
  type : MutationType
  center : Vec3
  radius : ℝ
  strength : ℝ

/-- The raw (pre-threshold) noise sample of a vertex:
`(noise3D(nv.x, nv.y, nv.z) + 1) / 2` at `nv = v * noiseF + time`. -/
noncomputable def rawNoise (noise3D : ℝ → ℝ → ℝ → ℝ) (time noiseF : ℝ) (v : Vec3) : ℝ :=
  let nv := (v.scale noiseF).addScalar time
  (noise3D nv.x nv.y nv.z + 1) / 2

/-- The water-floor threshold: `n > noiseWaterTreshold ? n : noiseWaterLevel`. -/
noncomputable def thresholdedNoise (conf : NoiseConfig) (raw : ℝ) : ℝ :=
  if raw > conf.noiseWaterTreshold then raw else conf.noiseWaterLevel

/-- A mutation's influence on a direction:
`angle = Math.acos(Math.min(1, Math.max(-1, dir.dot(c))))` against the
normalized center `c`, then
`Math.max(0, 1 - angle / Math.max(0.0001, m.radius))`. -/
noncomputable def influence (m : TerrainMutation) (dir : Vec3) : ℝ :=
  let angle := Real.arccos (min 1 (max (-1) (dir.dot m.center.normalize)))
  max 0 (1 - angle / max 0.0001 m.radius)

/-- One mutation's contribution in the displacement-stage loop:
`if (inf <= 0) continue; if volcanic extraOut += strength * inf;
else extraIn += strength * inf`. -/
noncomputable def muStep (dir : Vec3) (acc : ℝ × ℝ) (m : TerrainMutation) :
    ℝ × ℝ :=
  let inf := influence m dir
  if inf ≤ 0 then acc
  else match m.type with
    | .volcanic => (acc.1 + m.strength * inf, acc.2)
    | .meteor => (acc.1, acc.2 + m.strength * inf)

/-- The displacement-stage mutation loop: accumulate `extraOut` from
volcanic and `extraIn` from meteor mutations. -/
noncomputable def mutationOffsets (muts : List TerrainMutation) (dir : Vec3) :
    ℝ × ℝ :=
  muts.foldl (muStep dir) (0, 0)

/-- The vertex position after noise displacement only:
`tmp = v + normalize(v) * (thresholdedNoise * noiseD)`. -/
noncomputable def noiseDisplaced (noise3D : ℝ → ℝ → ℝ → ℝ) (time : ℝ)
    (conf : NoiseConfig) (v : Vec3) : Vec3 :=
  let n := thresholdedNoise conf (rawNoise noise3D time conf.noiseF v)
  v.add ((v.normalize).scale (n * conf.noiseD))

/-- The final vertex position: noise displacement, then (when mutations
are present) `tmp.addScaledVector(dir, extraOut - extraIn)` along
`dir = normalize(tmp)`, guarded by `extraOut !== 0 || extraIn !== 0`. -/
noncomputable def displacedVertex (noise3D : ℝ → ℝ → ℝ → ℝ) (time : ℝ)
    (conf : NoiseConfig) (muts : List TerrainMutation) (v : Vec3) : Vec3 :=
  let tmp := noiseDisplaced noise3D time conf v
  if muts.isEmpty then tmp else
    let dir := tmp.normalize
    let eo := mutationOffsets muts dir
    if eo.1 ≠ 0 ∨ eo.2 ≠ 0 then tmp.add (dir.scale (eo.1 - eo.2)) else tmp

/-- Which of the four colour objects a face's vertices receive. -/
inductive FaceColor where
  | ground
  | water
  | lava
  | ash
deriving Repr, DecidableEq

/-- One mutation's contribution in the colour-stage averaging loop:
add `inf / 3` to the volcanic or meteor accumulator. -/
noncomputable def avgStep (dir : Vec3) (acc2 : ℝ × ℝ) (m : TerrainMutation) :
    ℝ × ℝ :=
  let inf := influence m dir
  match m.type with
    | .volcanic => (acc2.1 + inf / 3, acc2.2)
    | .meteor => (acc2.1, acc2.2 + inf / 3)

/-- The colour-stage averaging loop: for each (displaced, normalized)
vertex direction and each mutation, add `inf / 3` to the volcanic or
meteor accumulator. -/
noncomputable def faceAvgInfluences (muts : List TerrainMutation)
    (dirs : List Vec3) : ℝ × ℝ :=
  dirs.foldl (fun acc dir => muts.foldl (avgStep dir) acc) (0, 0)

/-- The face override colour: lava when the averaged volcanic influence
exceeds 0.35, else ash when the averaged meteor influence does, else
none (and none when there are no mutations). -/
noncomputable def faceOverrideColor (muts : List TerrainMutation)
    (dirs : List Vec3) : Option FaceColor :=
  if muts.isEmpty then none else
    let avg := faceAvgInfluences muts dirs
    if avg.1 > 0.35 then some .lava
    else if avg.2 > 0.35 then some .ash
    else none

/-- The three displaced, normalized vertex directions the colour stage
reads back from the position buffer. -/
noncomputable def faceDirs (noise3D : ℝ → ℝ → ℝ → ℝ) (time : ℝ)
    (conf : NoiseConfig) (muts : List TerrainMutation) (v0 v1 v2 : Vec3) :
    List Vec3 :=
  [(displacedVertex noise3D time conf muts v0).normalize,
   (displacedVertex noise3D time conf muts v1).normalize,
   (displacedVertex noise3D time conf muts v2).normalize]

/-- The face's water classification: all three **raw** vertex noise
samples are `<= noiseWaterTreshold`. -/
def faceIsWater (noise3D : ℝ → ℝ → ℝ → ℝ) (time : ℝ) (conf : NoiseConfig)
    (v0 v1 v2 : Vec3) : Prop :=
  rawNoise noise3D time conf.noiseF v0 ≤ conf.noiseWaterTreshold ∧
  rawNoise noise3D time conf.noiseF v1 ≤ conf.noiseWaterTreshold ∧
  rawNoise noise3D time conf.noiseF v2 ≤ conf.noiseWaterTreshold

/-- The resolved face colour:
`c = overrideColor ? overrideColor : isWater ? waterCol : groundCol`. -/
noncomputable def faceColor (noise3D : ℝ → ℝ → ℝ → ℝ) (time : ℝ)
    (conf : NoiseConfig) (muts : List TerrainMutation) (v0 v1 v2 : Vec3) :
    FaceColor :=
  match faceOverrideColor muts (faceDirs noise3D time conf muts v0 v1 v2) with
    | some c => c
    | none => if faceIsWater noise3D time conf v0 v1 v2 then .water else .ground

end Terrain

/-! ## Biome-index consumers

Three code sites compute a biome index from the user seed:
`PlanetScreen` (`Math.floor(seedrandom(`⟨seed⟩-world`)() * 6)`), the 2D
renderer's fallback in `Planet2D`, and the 3D scene's selection in
`LittlePlanetScene` (clamped into the 6-element `BIOMES` table, falling
back to a `worldRng` draw when no numeric index is given;
`SimpleLittlePlanet` always passes `biomeIndex || 0`). -/

/-- `BiomePreset`. -/
structure BiomePreset where
  name : String
  groundColor : String
  waterColor : String
  treePalette : List String
  rockColor : String
  noiseFMultiplier : ℚ
  noiseDMultiplier : ℚ
  waterThresholdDelta : ℚ
  maxTreesMultiplier : ℚ
  maxRocksMultiplier : ℚ

/-- The `BIOMES` table of `PlanetInfo.tsx`. -/
def BIOMES : List BiomePreset :=
  [{ name := "forest", groundColor := "#417B2B", waterColor := "#2080D0"
     treePalette := ["#509A36", "#3C8A2C", "#6BBE53", "#4CAF2F", "#3E9F2A"]
     rockColor := "#808080", noiseFMultiplier := 1.0, noiseDMultiplier := 1.0
     waterThresholdDelta := 0.0, maxTreesMultiplier := 1.0, maxRocksMultiplier := 1.0 },
   { name := "desert", groundColor := "#C2B280", waterColor := "#1D74C9"
     treePalette := ["#C6B36D", "#D1BF79", "#B9A764", "#CAB56F", "#B29E5D"]
     rockColor := "#9B8B6E", noiseFMultiplier := 0.9, noiseDMultiplier := 0.7
     waterThresholdDelta := -0.2, maxTreesMultiplier := 0.25, maxRocksMultiplier := 1.2 },
   { name := "ice", groundColor := "#A7E8FF", waterColor := "#5BC0FF"
     treePalette := ["#7AD3FF", "#99DEFF", "#B5E6FF", "#8FD8FF", "#66CCFF"]
     rockColor := "#B0C4DE", noiseFMultiplier := 0.8, noiseDMultiplier := 0.9
     waterThresholdDelta := 0.15, maxTreesMultiplier := 0.2, maxRocksMultiplier := 0.8 },
   { name := "oceanic", groundColor := "#1F6AA5", waterColor := "#1B6BB8"
     treePalette := ["#3AA7A1", "#2A908B", "#5CC1BA", "#2F9E98", "#46B7B0"]
     rockColor := "#6F8FA6", noiseFMultiplier := 1.1, noiseDMultiplier := 0.8
     waterThresholdDelta := 0.25, maxTreesMultiplier := 0.35, maxRocksMultiplier := 0.6 },
   { name := "volcanic", groundColor := "#5A2D27", waterColor := "#3A3A3A"
     treePalette := ["#E25822", "#FF7F50", "#D94C1A", "#F27A3A", "#F2A679"]
     rockColor := "#4A4A4A", noiseFMultiplier := 1.2, noiseDMultiplier := 1.4
     waterThresholdDelta := -0.3, maxTreesMultiplier := 0.1, maxRocksMultiplier := 1.6 },
   { name := "alien", groundColor := "#6C5B7B", waterColor := "#355C7D"
     treePalette := ["#C06C84", "#F67280", "#99B898", "#C06C84", "#F8B195"]
     rockColor := "#7E6A8E", noiseFMultiplier := 1.05, noiseDMultiplier := 1.1
     waterThresholdDelta := 0.05, maxTreesMultiplier := 0.8, maxRocksMultiplier := 1.2 }]

/-- `PlanetScreen`'s `biomeIndex` memo:
`Math.floor(seedrandom(`⟨seed⟩-world`)() * 6)`. -/
def planetScreenBiomeIndex (seed : String) : ℤ :=
  ⌊(prngNext (seedrandom (seed ++ "-world"))).1 * 6⌋

/-- `Planet2D`'s fallback biome index (used when no numeric `biomeIndex`
prop is given): `Math.floor(seedrandom((userSeed ?? planetData.seed) + "-world")() * 6)`. -/
def planet2DFallbackBiomeIndex (userSeed : Option String) (planetSeed : String) : ℤ :=
  ⌊(prngNext (seedrandom (userSeed.getD planetSeed ++ "-world"))).1 * 6⌋

/-- `LittlePlanetScene`'s biome selection index:
`Math.max(0, Math.min(BIOMES.length - 1, base.biomeIndex))` when the prop
is a number, else `Math.floor(worldRng() * BIOMES.length)` with
`worldRng = seedrandom(`⟨userSeed⟩-world`)`. -/
def littlePlanetBiomeIndex (biomeIndex : Option ℤ) (userSeed : String) : ℤ :=
  match biomeIndex with
    | some i => max 0 (min ((BIOMES.length : ℤ) - 1) i)
    | none => ⌊(prngNext (seedrandom (userSeed ++ "-world"))).1 * (BIOMES.length : ℚ)⌋

/-- `SimpleLittlePlanet` forwards `biomeIndex: biomeIndex || 0` into
`base` (JavaScript `||`: 0 when the prop is 0 or absent). -/
def jsOrZero (biomeIndex : Option ℤ) : ℤ :=
  match biomeIndex with
    | some i => if i = 0 then 0 else i
    | none => 0

/-! ## Helper lemmas about the generator -/

theorem generateEvent_day (day : Nat) (st : ArcState) :
    (generateEvent day st).1.day = day := rfl

theorem eventForDay_day {seed : String} {day : Nat} {e : IPlanetEvent}
    (h : eventForDay seed day = some e) : e.day = day := by
  unfold eventForDay eventRollFor at h
  rcases ite_eq_iff.mp h with ⟨_, he⟩ | ⟨_, he⟩
  · cases he
    rfl
  · cases he

theorem calculateAtmosphere_bounds (day : Nat) (stage : PlanetStage)
    (st : ArcState) :
    0 ≤ (calculateAtmosphere day stage st).1 ∧
      (calculateAtmosphere day stage st).1 ≤ 1 := by
  unfold calculateAtmosphere
  constructor
  · exact le_min (by norm_num) (le_max_left 0 _)
  · exact min_le_left 1 _

theorem calculateWater_bounds (day : Nat) (stage : PlanetStage)
    (st : ArcState) :
    0 ≤ (calculateWater day stage st).1 ∧ (calculateWater day stage st).1 ≤ 1 := by
  have hq2 := prngNext_nonneg (prngNext st).2
  have hday : (0 : ℚ) ≤ min ((day : ℚ) * 0.005) 0.3 :=
    le_min (by positivity) (by norm_num)
  cases stage <;> unfold calculateWater <;>
    [norm_num; norm_num; skip; skip; skip; skip] <;>
    rw [if_neg (by simp)] <;> dsimp only <;> split <;>
    [norm_num;
     exact ⟨le_min (by norm_num) (by linarith), min_le_left 1 _⟩;
     norm_num;
     exact ⟨le_min (by norm_num) (by linarith), min_le_left 1 _⟩;
     norm_num;
     exact ⟨le_min (by norm_num) (by linarith), min_le_left 1 _⟩;
     norm_num;
     exact ⟨le_min (by norm_num) (by linarith), min_le_left 1 _⟩]

theorem calculateLife_bounds (day : Nat) (stage : PlanetStage)
    (st : ArcState) :
    0 ≤ (calculateLife day stage st).1 ∧ (calculateLife day stage st).1 ≤ 1 := by
  unfold calculateLife
  split
  · norm_num
  · dsimp only
    split
    · norm_num
    · exact ⟨le_min (by norm_num) (le_max_left 0 _), min_le_left 1 _⟩

theorem calculateTemperature_ge (day : Nat) (st : ArcState) :
    (50 : ℝ) ≤ (calculateTemperature day st).1 := by
  unfold calculateTemperature
  exact le_max_left 50 _

/-! ## C9: resource mirroring -/

/-- C9: in every snapshot produced by `generatePlanetData`,
`resources.gases` is exactly the snapshot's `atmosphere` and
`resources.water` is exactly the snapshot's `water` — these resource
entries are not independently generated values. -/
theorem resources_mirror_attributes (g : PlanetGenerator) (day : Nat) :
    (generatePlanetData g day).1.resources.gases =
        (generatePlanetData g day).1.atmosphere ∧
      (generatePlanetData g day).1.resources.water =
        (generatePlanetData g day).1.water :=
  ⟨rfl, rfl⟩

/-! ## C5: stage classification and monotonicity -/

/-- Spec-side transcription of the stage rule: the first stage, scanning
`mature, life, surface, atmosphere, core, seed`, whose `minDays`
requirement (60, 30, 14, 7, 3, 1) is at most `day`. -/
def stageByMinDaysSpec (day : Nat) : PlanetStage :=
  if 60 ≤ day then .mature
  else if 30 ≤ day then .life
  else if 14 ≤ day then .surface
  else if 7 ≤ day then .atmosphere
  else if 3 ≤ day then .core
  else .seed

/-- The tier order `seed < core < atmosphere < surface < life < mature`. -/
def stageTierIndex : PlanetStage → Nat
  | .seed => 0
  | .core => 1
  | .atmosphere => 2
  | .surface => 3
  | .life => 4
  | .mature => 5

theorem calculateStage_eq_spec (day : Nat) :
    calculateStage day = stageByMinDaysSpec day := by
  unfold calculateStage stageByMinDaysSpec stagesList
  by_cases h60 : 60 ≤ day
  · simp [List.find?, STAGE_REQUIREMENTS, h60]
  · by_cases h30 : 30 ≤ day
    · simp [List.find?, STAGE_REQUIREMENTS, h60, h30]
    · by_cases h14 : 14 ≤ day
      · simp [List.find?, STAGE_REQUIREMENTS, h60, h30, h14]
      · by_cases h7 : 7 ≤ day
        · simp [List.find?, STAGE_REQUIREMENTS, h60, h30, h14, h7]
        · by_cases h3 : 3 ≤ day
          · simp [List.find?, STAGE_REQUIREMENTS, h60, h30, h14, h7, h3]
          · by_cases h1 : 1 ≤ day
            · simp [List.find?, STAGE_REQUIREMENTS, h60, h30, h14, h7, h3, h1]
            · simp [List.find?, STAGE_REQUIREMENTS, h60, h30, h14, h7, h3, h1]

/-- C5: the stage for day `d` is the first stage, scanning
`mature, life, surface, atmosphere, core, seed`, whose `minDays`
requirement (60, 30, 14, 7, 3, 1) is `≤ d`; consequently the stage is
non-decreasing in the tier order
`seed < core < atmosphere < surface < life < mature`. -/
theorem calculateStage_spec_and_monotone (d d1 d2 : Nat) (_hd : 1 ≤ d)
    (_hd1 : 1 ≤ d1) (h12 : d1 < d2) :
    calculateStage d = stageByMinDaysSpec d ∧
      stageTierIndex (calculateStage d1) ≤ stageTierIndex (calculateStage d2) := by
  refine ⟨calculateStage_eq_spec d, ?_⟩
  rw [calculateStage_eq_spec, calculateStage_eq_spec]
  unfold stageByMinDaysSpec
  split_ifs <;> simp [stageTierIndex] <;> omega

/-- Witness for `calculateStage_spec_and_monotone` at `d = 5`, `d1 = 2`,
`d2 = 70`. -/
theorem calculateStage_spec_and_monotone_witness :
    calculateStage 5 = stageByMinDaysSpec 5 ∧
      stageTierIndex (calculateStage 2) ≤ stageTierIndex (calculateStage 70) :=
  calculateStage_spec_and_monotone 5 2 70 (by decide) (by decide) (by decide)

/-! ## C4: attribute bounds -/

/-- C4: for every generator state and day `d ≥ 1`, the generated snapshot
has `atmosphere ∈ [0,1]`, `water ∈ [0,1]`, `life ∈ [0,1]` and
`temperature ≥ 50`. -/
theorem snapshot_attribute_bounds (g : PlanetGenerator) (day : Nat)
    (_hday : 1 ≤ day) :
    0 ≤ (generatePlanetData g day).1.atmosphere ∧
      (generatePlanetData g day).1.atmosphere ≤ 1 ∧
      0 ≤ (generatePlanetData g day).1.water ∧
      (generatePlanetData g day).1.water ≤ 1 ∧
      0 ≤ (generatePlanetData g day).1.life ∧
      (generatePlanetData g day).1.life ≤ 1 ∧
      (50 : ℝ) ≤ (generatePlanetData g day).1.temperature := by
  refine ⟨(calculateAtmosphere_bounds day (calculateStage day) _).1,
    (calculateAtmosphere_bounds day (calculateStage day) _).2,
    (calculateWater_bounds day (calculateStage day) _).1,
    (calculateWater_bounds day (calculateStage day) _).2,
    (calculateLife_bounds day (calculateStage day) _).1,
    (calculateLife_bounds day (calculateStage day) _).2,
    calculateTemperature_ge day _⟩

/-- Witness for `snapshot_attribute_bounds` at seed `"w"`, day 1. -/
theorem snapshot_attribute_bounds_witness :
    0 ≤ (generatePlanetData (newPlanetGenerator "w") 1).1.atmosphere ∧
      (generatePlanetData (newPlanetGenerator "w") 1).1.atmosphere ≤ 1 ∧
      0 ≤ (generatePlanetData (newPlanetGenerator "w") 1).1.water ∧
      (generatePlanetData (newPlanetGenerator "w") 1).1.water ≤ 1 ∧
      0 ≤ (generatePlanetData (newPlanetGenerator "w") 1).1.life ∧
      (generatePlanetData (newPlanetGenerator "w") 1).1.life ≤ 1 ∧
      (50 : ℝ) ≤ (generatePlanetData (newPlanetGenerator "w") 1).1.temperature :=
  snapshot_attribute_bounds (newPlanetGenerator "w") 1 (by decide)

/-! ## C2: prefix stability of the event history -/

theorem mem_eventsHistory_day_le {s : String} {d : Nat} {e : IPlanetEvent}
    (h : e ∈ generateEventsHistory s d) : 1 ≤ e.day ∧ e.day ≤ d := by
  unfold generateEventsHistory at h
  obtain ⟨a, ha, hae⟩ := List.mem_filterMap.mp h
  have hr := List.mem_range'_1.mp ha
  have hd := eventForDay_day hae
  omega

/-- C2: for every seed `s` and days `d1 < d2`, the event list for `d2`,
filtered to events with `day ≤ d1`, equals the event list for `d1`
exactly (same events, same order, same fields). -/
theorem eventsHistory_prefix_stable (s : String) (d1 d2 : Nat) (h : d1 < d2) :
    (generateEventsHistory s d2).filter (fun e => e.day ≤ d1) =
      generateEventsHistory s d1 := by
  unfold generateEventsHistory
  have hsplit : List.range' 1 d1 ++ List.range' (1 + 1 * d1) (d2 - d1) =
      List.range' 1 d2 := by
    rw [List.range'_append]
    congr 1
    omega
  rw [← hsplit, List.filterMap_append, List.filter_append]
  have h1 : (((List.range' 1 d1).filterMap (eventForDay s)).filter
        (fun e => e.day ≤ d1)) =
      ((List.range' 1 d1).filterMap (eventForDay s)) := by
    rw [List.filter_eq_self]
    intro e he
    obtain ⟨a, ha, hae⟩ := List.mem_filterMap.mp he
    have hr := List.mem_range'_1.mp ha
    have hd := eventForDay_day hae
    simp only [decide_eq_true_eq]
    omega
  have h2 : (((List.range' (1 + 1 * d1) (d2 - d1)).filterMap (eventForDay s)).filter
        (fun e => e.day ≤ d1)) = [] := by
    rw [List.filter_eq_nil_iff]
    intro e he
    obtain ⟨a, ha, hae⟩ := List.mem_filterMap.mp he
    have hr := List.mem_range'_1.mp ha
    have hd := eventForDay_day hae
    simp only [decide_eq_true_eq]
    omega
  rw [h1, h2, List.append_nil]

/-- Witness for `eventsHistory_prefix_stable` at `s = "w"`, `d1 = 1`,
`d2 = 2`. -/
theorem eventsHistory_prefix_stable_witness :
    (generateEventsHistory "w" 2).filter (fun e => e.day ≤ 1) =
      generateEventsHistory "w" 1 :=
  eventsHistory_prefix_stable "w" 1 2 (by decide)

/-! ## C8: biome-index consistency across consumers -/

/-- C8: the biome index of the planet screen
(`Math.floor(seedrandom(s + "-world")() * 6)`), the 2D renderer's
fallback computation (for `userSeed = s`, and for an absent `userSeed`
with `planetData.seed = s`), and the 3D scene's selection into the
6-element `BIOMES` table (both through the always-numeric
`biomeIndex || 0` that `SimpleLittlePlanet` passes, and through the
`worldRng` fallback) agree, depend only on `s`, and lie in `0..5`. -/
theorem biomeIndex_consistent (s pl : String) :
    planet2DFallbackBiomeIndex (some s) pl = planetScreenBiomeIndex s ∧
      planet2DFallbackBiomeIndex none s = planetScreenBiomeIndex s ∧
      littlePlanetBiomeIndex (some (jsOrZero (some (planetScreenBiomeIndex s)))) s =
        planetScreenBiomeIndex s ∧
      littlePlanetBiomeIndex none s = planetScreenBiomeIndex s ∧
      0 ≤ planetScreenBiomeIndex s ∧ planetScreenBiomeIndex s ≤ 5 := by
  obtain ⟨hq0, hq1⟩ := prngNext_mem_Ico (seedrandom (s ++ "-world"))
  have h0 : 0 ≤ planetScreenBiomeIndex s :=
    Int.floor_nonneg.mpr (by positivity)
  have h5 : planetScreenBiomeIndex s ≤ 5 := by
    have : (prngNext (seedrandom (s ++ "-world"))).1 * 6 < 6 := by linarith
    have hlt : planetScreenBiomeIndex s < 6 := Int.floor_lt.mpr (by exact_mod_cast this)
    omega
  have hlen : BIOMES.length = 6 := rfl
  refine ⟨rfl, rfl, ?_, ?_, h0, h5⟩
  · show max 0 (min ((BIOMES.length : ℤ) - 1)
        (jsOrZero (some (planetScreenBiomeIndex s)))) = planetScreenBiomeIndex s
    have hjs : jsOrZero (some (planetScreenBiomeIndex s)) = planetScreenBiomeIndex s := by
      show (if planetScreenBiomeIndex s = 0 then 0 else planetScreenBiomeIndex s) =
        planetScreenBiomeIndex s
      split <;> omega
    rw [hjs, hlen]
    omega
  · show (⌊(prngNext (seedrandom (s ++ "-world"))).1 * (BIOMES.length : ℚ)⌋ : ℤ) =
      planetScreenBiomeIndex s
    rw [hlen]
    norm_num [planetScreenBiomeIndex]
/-! ## Concrete stream evaluations

A full `seedrandom` initialisation does not reduce in one step (the
evaluator stack is finite), so the key schedule and the RC4 drop are
evaluated in two stages through explicit intermediate states.  The `Rat`
operations of core Lean do not reduce definitionally under this Mathlib,
so the `ℚ`-valued half of `prng` is evaluated through the closed form of
the halving loop (`prngLoop2_eval`) plus `norm_num`, while the
`Nat`-valued half (`arcG`, `prngLoop1`) is evaluated by `decide`. -/

theorem prngLoop2_eval_aux : ∀ (fuel k : Nat), k ≤ fuel → ∀ (n d : ℚ) (x : Nat),
    (∀ j : Nat, j < k → (overflow : ℚ) * 2 ^ j ≤ n) → n < (overflow : ℚ) * 2 ^ k →
    prngLoop2 fuel n d x = (n / 2 ^ k, d / 2 ^ k, x / 2 ^ k) := by
  intro fuel
  induction fuel with
  | zero =>
    intro k hk n d x hup hdown
    interval_cases k
    simp [prngLoop2]
  | succ fuel ih =>
    intro k hk n d x hup hdown
    cases k with
    | zero =>
      have hno : ¬ (overflow : ℚ) ≤ n := by
        simp only [pow_zero, mul_one] at hdown
        linarith
      simp only [prngLoop2]
      rw [if_neg hno]
      simp
    | succ k =>
      have h0 : (overflow : ℚ) ≤ n := by
        have := hup 0 (by omega)
        simpa using this
      simp only [prngLoop2]
      rw [if_pos h0]
      rw [ih k (by omega) (n / 2) (d / 2) (x / 2) ?_ ?_]
      · refine Prod.ext ?_ (Prod.ext ?_ ?_) <;> dsimp only
        · rw [div_div, ← pow_succ']
        · rw [div_div, ← pow_succ']
        · rw [Nat.div_div_eq_div_mul, ← pow_succ']
      · intro j hj
        have := hup (j + 1) (by omega)
        rw [pow_succ] at this
        linarith
      · rw [pow_succ] at hdown
        linarith

theorem prngLoop2_eval (k : Nat) (n d : ℚ) (x : Nat) (hk : k ≤ 64)
    (hup : ∀ j : Nat, j < k → (overflow : ℚ) * 2 ^ j ≤ n)
    (hdown : n < (overflow : ℚ) * 2 ^ k) :
    prngLoop2 64 n d x = (n / 2 ^ k, d / 2 ^ k, x / 2 ^ k) :=
  prngLoop2_eval_aux 64 k hk n d x hup hdown

theorem prngNext_eq {st : ArcState} {n d x : Nat} {st2 : ArcState}
    {n2 d2 : ℚ} {x2 : Nat}
    (h1 : prngLoop1 64 (arcG chunks st).1 startdenom 0 (arcG chunks st).2 =
      (n, d, x, st2))
    (h2 : prngLoop2 64 (n : ℚ) (d : ℚ) x = (n2, d2, x2)) :
    prngNext st = ((n2 + (x2 : ℚ)) / d2, st2) := by
  simp only [prngNext]
  rw [h1, h2]

/-- The ARC4 state right after key scheduling for `"Terra-1000"`. -/
def terraKsa : ArcState :=
  ⟨11180516258734286438952614167528060184322638052458743237136010862544348715577845461517305263809823954083054472462482952505344907760602963322948731282193032256854849814971348055202618917473056947206431437096430110698275119060778188050499949682832677797008581000275783027528669647568421423918912042838683800105174467791535754181904610760524341490549926681569414381415949971352175981717785055347626157250473624716418796513701761281965875582349106281636294137149098554845029949900161000118096197934179469189876790631886460525682579832210701770869436109123936499852503736887109439022714260501096636517888284639195806191200, 0, 0⟩

/-- The state of `seedrandom "Terra-1000"` (after the RC4 drop). -/
def terraSt0 : ArcState :=
  ⟨26804536334759387013429344340338647241090926315530014214128702192627022243800659512716936278667364166350317773137063641491743091427920750877903654854230978277718638574735982288033641157201469958509723488313560945983586301047257929062965111701263501905619202244472194066907465805138092889021037751543565765871078281514978200549826847183548833556299484761071468963024686245015251151149775620849680093488754810429131954878151970025948242767963051742665950477289226712325954625310816627669567025982155390339926068251609174376280197764279728638513273496356269650164332534570651461314549041595647623518541958834106408039205, 0, 106⟩

set_option maxRecDepth 8000 in
theorem arcInit_terra : arcInit (keyOfString "Terra-1000") = terraKsa := by
  decide

set_option maxRecDepth 8000 in
theorem terraDrop : (arcG 256 terraKsa).2 = terraSt0 := by
  decide

theorem seedrandom_terra : seedrandom "Terra-1000" = terraSt0 := by
  have h : seedrandom "Terra-1000" =
      (arcG 256 (arcInit (keyOfString "Terra-1000"))).2 := rfl
  rw [h, arcInit_terra, terraDrop]

/-- The ARC4 state of `seedrandom "Terra-1000"` after 1 draw(s). -/
def terraSt1 : ArcState :=
  ⟨26804536334759387013429344340338647241090926315530014214128702192627022243800659512716936278665732396334162143662091945243852727124788008830520023607570760245138122992748406944549275675724276363058588047406729416634788995715367605240429646864115926257509554547890116519298942610927316720942252589679618318414143196600983163594160873456084123027731059605645572475248927756931197525042419121248612969162411333531851435651567857920327072425283358037772456342220748496114217800193687863758045540891022337252967488009343486052925901392655994951719780798317995340326290155721304496883535439342724366461875388960154261132325, 7, 154⟩

set_option maxRecDepth 8000 in
theorem terraLoop1_1 :
    prngLoop1 64 (arcG chunks terraSt0).1 startdenom 0
      (arcG chunks terraSt0).2 = (55126479297446144, 72057594037927936, 20, terraSt1) := by
  decide

set_option linter.unnecessarySeqFocus false in
theorem terraDraw1 :
    prngNext terraSt0 =
      (((6890809912180768 : ℚ) + ((2 : ℕ) : ℚ)) / (9007199254740992 : ℚ), terraSt1) := by
  refine prngNext_eq terraLoop1_1 ?_
  rw [prngLoop2_eval 3 _ _ _ (by norm_num)
    (by intro j hj; interval_cases j <;> norm_num [overflow])
    (by norm_num [overflow])]
  norm_num [Prod.ext_iff]

/-- The ARC4 state of `seedrandom "Terra-1000"` after 2 draw(s). -/
def terraSt2 : ArcState :=
  ⟨26804536334759387013429344340338647241090926315530014214128702192627022243800659512716936278665732396334162143662091946683084355999584396187929355307193390211258226627246861491586112821329927295350610525828991159513141810009564857411846515205489095040856006778698075755057747120786295665398125630672143297023640335828099054216814167680107829386061026815473696535433601596194785950690429790576988820331270403869140246318682509629230117717145881443904017148702089839350417749046733639564570074430706887082105678981300395859706288535421924642899839590672880024902987707850304143848876077878742217616570478090854599758885, 14, 122⟩

set_option maxRecDepth 8000 in
theorem terraLoop1_2 :
    prngLoop1 64 (arcG chunks terraSt1).1 startdenom 0
      (arcG chunks terraSt1).2 = (55920381537604864, 72057594037927936, 46, terraSt2) := by
  decide

set_option linter.unnecessarySeqFocus false in
theorem terraDraw2 :
    prngNext terraSt1 =
      (((6990047692200608 : ℚ) + ((5 : ℕ) : ℚ)) / (9007199254740992 : ℚ), terraSt2) := by
  refine prngNext_eq terraLoop1_2 ?_
  rw [prngLoop2_eval 3 _ _ _ (by norm_num)
    (by intro j hj; interval_cases j <;> norm_num [overflow])
    (by norm_num [overflow])]
  norm_num [Prod.ext_iff]

/-- The ARC4 state right after key scheduling for `"w-events-1"`. -/
def wevKsa : ArcState :=
  ⟨21610545028941285741817968643575264380810816422884690705921326960276528604579032682805879854497230325620759339579388911192488154914923820085036029863798456715087631559045488514720932353251056509848646565351692549044144096858299449891741081667984508621930451238632529882721433308141948170880768898812809664852342176226428313070883584882216588426631603691064134945099232427432877111497990276704354717808904589765725531909979499143461162834774759158677541101420253129636738426988952981183720287186976622310570224036542149148427221560952925211370021888410565265397702270113271102509967563432497074323706654280518046950775, 0, 0⟩

/-- The state of `seedrandom "w-events-1"` (after the RC4 drop). -/
def wevSt0 : ArcState :=
  ⟨13805641462006234110446310827679340152225379904855515719863632986900353663209320677125919444275453364621582333627666510787297506712812089125238064384199904245567854218549518913086984124923982965073137131833686475718038131114693251759810558947844653564327090675703730170700424901187071333123171421111452526008407293764367151281446905030330037390100937767740270831814833373426778816362466227180694596459276236127085495836570403149848292768886597814469285106749131706116025425893416867340904836930676211468804971501496331327353040782020545237447178288146883243003413611042191517619129792017865602354696920924032494673740, 0, 251⟩

set_option maxRecDepth 8000 in
theorem arcInit_wev : arcInit (keyOfString "w-events-1") = wevKsa := by
  decide

set_option maxRecDepth 8000 in
theorem wevDrop : (arcG 256 wevKsa).2 = wevSt0 := by
  decide

theorem seedrandom_wev : seedrandom "w-events-1" = wevSt0 := by
  have h : seedrandom "w-events-1" =
      (arcG 256 (arcInit (keyOfString "w-events-1"))).2 := rfl
  rw [h, arcInit_wev, wevDrop]

/-- The ARC4 state of `seedrandom "w-events-1"` after 1 draw(s). -/
def wevSt1 : ArcState :=
  ⟨13805641462006234110446303726991021888842652869475929884280345138465767801447556020734485540487511380019859998909328533644437816052770607339459855135851925294245724040419150262436987128566414732080222644821387279971446063227270009160824626555065592932218379705286196944380426147221813029277443947169813439579695994819721045781975761328590347884463082522272616755725775430120258122310080763752354591393806807476205743809311251246653482413543886248514640098853324712172035361023210629698547281209928594363377483153861325673555726485906056704030634699172867025465853176711593974906696143960382946431927540002119395618380, 8, 228⟩

set_option maxRecDepth 8000 in
theorem wevLoop1_1 :
    prngLoop1 64 (arcG chunks wevSt0).1 startdenom 0
      (arcG chunks wevSt0).2 = (547792701948450304, 18446744073709551616, 153, wevSt1) := by
  decide

set_option linter.unnecessarySeqFocus false in
theorem wevDraw1 :
    prngNext wevSt0 =
      (((8559260967944536 : ℚ) + ((2 : ℕ) : ℚ)) / (288230376151711744 : ℚ), wevSt1) := by
  refine prngNext_eq wevLoop1_1 ?_
  rw [prngLoop2_eval 6 _ _ _ (by norm_num)
    (by intro j hj; interval_cases j <;> norm_num [overflow])
    (by norm_num [overflow])]
  norm_num [Prod.ext_iff]

/-- The ARC4 state of `seedrandom "w-events-1"` after 2 draw(s). -/
def wevSt2 : ArcState :=
  ⟨13805641462006234110446303726991021888842652869475929884280345138465767801447556020734485540487511380019859998909328533644437816052770607339459855135851925294245839085310872486084079347054924453294441403593474765089989031844791323522254474251893588157526378404464419277714715182278882715397971968637807120576381122115841997802098879103804813722287415749914144176508082934611575911315848569881571076344779212988340811759337092579257249827295610179651315377570839378397787061904345764355513721921011193832710807808946012564589188785409449473815478046439925893839612200269285394859813487093009921170133096215014189346380, 15, 81⟩

set_option maxRecDepth 8000 in
theorem wevLoop1_2 :
    prngLoop1 64 (arcG chunks wevSt1).1 startdenom 0
      (arcG chunks wevSt1).2 = (66509019067808512, 72057594037927936, 226, wevSt2) := by
  decide

set_option linter.unnecessarySeqFocus false in
theorem wevDraw2 :
    prngNext wevSt1 =
      (((8313627383476064 : ℚ) + ((28 : ℕ) : ℚ)) / (9007199254740992 : ℚ), wevSt2) := by
  refine prngNext_eq wevLoop1_2 ?_
  rw [prngLoop2_eval 3 _ _ _ (by norm_num)
    (by intro j hj; interval_cases j <;> norm_num [overflow])
    (by norm_num [overflow])]
  norm_num [Prod.ext_iff]

/-- The ARC4 state of `seedrandom "w-events-1"` after 3 draw(s). -/
def wevSt3 : ArcState :=
  ⟨13805641462006234110446303726991021888842652869475929884280345138465767801447556020734485540487511380019859998909328533644437816052770607339459855135851925294245839085310872486084079347054924453294435492851045587024772190914758726958872246915187752795055046981329027666836436723652103213845409757665620664804633881946286002765463996074163028477544138435406521899418795018771406347907613708324296526045259569293561431427762310473380068125580594452891868131462812776224859342919132603039708472571259796526321458792500654666934434663314325914109051049041157593636646785779429425638675154940641132549291329571285312515660, 22, 173⟩

set_option maxRecDepth 8000 in
theorem wevLoop1_3 :
    prngLoop1 64 (arcG chunks wevSt2).1 startdenom 0
      (arcG chunks wevSt2).2 = (42420254193207040, 72057594037927936, 31, wevSt3) := by
  decide

set_option linter.unnecessarySeqFocus false in
theorem wevDraw3 :
    prngNext wevSt2 =
      (((5302531774150880 : ℚ) + ((3 : ℕ) : ℚ)) / (9007199254740992 : ℚ), wevSt3) := by
  refine prngNext_eq wevLoop1_3 ?_
  rw [prngLoop2_eval 3 _ _ _ (by norm_num)
    (by intro j hj; interval_cases j <;> norm_num [overflow])
    (by norm_num [overflow])]
  norm_num [Prod.ext_iff]

/-- The ARC4 state of `seedrandom "w-events-1"` after 4 draw(s). -/
def wevSt4 : ArcState :=
  ⟨13805641462006234110446303726991021888842652869475929884280345138465767801447556020734508893355840475545473882716056198337597694650543484689277019199670214880477416917095016196004361951669226607739987389713748747145255337696593303211362650958356092320693712008194820821880768686195938278264992492537533451658076095586025478103340724887777474862052451910642341330407047990871770499754780669921614080442562284690188512367901841563557952115716556858767249593858397776642256969299578569503222170006418168531208836596571552262169706705502592062405025870596379931910716088410009843603682664558409357941286092547968651800140, 29, 185⟩

set_option maxRecDepth 8000 in
theorem wevLoop1_4 :
    prngLoop1 64 (arcG chunks wevSt3).1 startdenom 0
      (arcG chunks wevSt3).2 = (43069689713984768, 72057594037927936, 46, wevSt4) := by
  decide

set_option linter.unnecessarySeqFocus false in
theorem wevDraw4 :
    prngNext wevSt3 =
      (((5383711214248096 : ℚ) + ((5 : ℕ) : ℚ)) / (9007199254740992 : ℚ), wevSt4) := by
  refine prngNext_eq wevLoop1_4 ?_
  rw [prngLoop2_eval 3 _ _ _ (by norm_num)
    (by intro j hj; interval_cases j <;> norm_num [overflow])
    (by norm_num [overflow])]
  norm_num [Prod.ext_iff]

/-- The ARC4 state of `seedrandom "w-events-1"` after 5 draw(s). -/
def wevSt5 : ArcState :=
  ⟨13805641462006234110446303726991021888842652869475929884275807454516159186631053263107691229716017252791327978522694538221033283702092439392033837824484428004304423831311268823600921771665887350879308647680765560363738377760071999223954564028087266079156365757738285544334341094968638373729406155750991663760738322175723184671212220369476958323320091519687258558753540196438892341477646643026279296652905842602654180994080214159367397181337347854597171029785048300294747518242281101093786439251630626631140626803303486781372649581282333093326949808401382445364967227116245703936525028709743258738620151215632633081420, 36, 224⟩

set_option maxRecDepth 8000 in
theorem wevLoop1_5 :
    prngLoop1 64 (arcG chunks wevSt4).1 startdenom 0
      (arcG chunks wevSt4).2 = (17634615042866688, 72057594037927936, 88, wevSt5) := by
  decide

set_option linter.unnecessarySeqFocus false in
theorem wevDraw5 :
    prngNext wevSt4 =
      (((8817307521433344 : ℚ) + ((44 : ℕ) : ℚ)) / (36028797018963968 : ℚ), wevSt5) := by
  refine prngNext_eq wevLoop1_5 ?_
  rw [prngLoop2_eval 1 _ _ _ (by norm_num)
    (by intro j hj; interval_cases j <;> norm_num [overflow])
    (by norm_num [overflow])]
  norm_num [Prod.ext_iff]

/-- The ARC4 state of `seedrandom "w-events-1"` after 6 draw(s). -/
def wevSt6 : ArcState :=
  ⟨22372093938062368430942196638300445800232346344486571189911921357820576744498683277094229665442461397531306330302990766764568825246865504317441685159939626434232833461886774435035041479889578760564603350756282924518440187217016068411656313305128432290859868864951451923197218371236077612062186621972874797761183313221699813474358577462797277957022672409368585767923752195540123885651389962626157887498312135356477900793689256882542222763213342528964810694203813280318863810538598519691205587888744212063987248688300526181817689038292620004414981575677909893589592374023350182268928303134128261476967870146420823862860, 43, 115⟩

set_option maxRecDepth 8000 in
theorem wevLoop1_6 :
    prngLoop1 64 (arcG chunks wevSt5).1 startdenom 0
      (arcG chunks wevSt5).2 = (14569661407720960, 72057594037927936, 102, wevSt6) := by
  decide

set_option linter.unnecessarySeqFocus false in
theorem wevDraw6 :
    prngNext wevSt5 =
      (((7284830703860480 : ℚ) + ((51 : ℕ) : ℚ)) / (36028797018963968 : ℚ), wevSt6) := by
  refine prngNext_eq wevLoop1_6 ?_
  rw [prngLoop2_eval 1 _ _ _ (by norm_num)
    (by intro j hj; interval_cases j <;> norm_num [overflow])
    (by norm_num [overflow])]
  norm_num [Prod.ext_iff]

/-- The ARC4 state of `seedrandom "w-events-1"` after 7 draw(s). -/
def wevSt7 : ArcState :=
  ⟨8359642086829861359147855574072458817383536202539623035355404395104808305380183710107189743973288924417296167901029669001107879224638797113099388875678505861408043166687468627758959070521349389445942888103547634955145885917828547073462315407099182610897148462300174494661109664863404359953033156408365501414181306817196823567397232684376864769344295017085514575945946090838306054088832272573595478146688389160023791175451628965440406901091217658400967252347862170538168314156009551933757740975791488824786030996589604750944350641730796275261921917929841940829724036507216889933716916023106074908018405155549495995980, 51, 18⟩

set_option maxRecDepth 8000 in
theorem wevLoop1_7 :
    prngLoop1 64 (arcG chunks wevSt6).1 startdenom 0
      (arcG chunks wevSt6).2 = (896151021748835328, 18446744073709551616, 3, wevSt7) := by
  decide

set_option linter.unnecessarySeqFocus false in
theorem wevDraw7 :
    prngNext wevSt6 =
      (((7001179857412776 : ℚ) + ((0 : ℕ) : ℚ)) / (144115188075855872 : ℚ), wevSt7) := by
  refine prngNext_eq wevLoop1_7 ?_
  rw [prngLoop2_eval 7 _ _ _ (by norm_num)
    (by intro j hj; interval_cases j <;> norm_num [overflow])
    (by norm_num [overflow])]
  norm_num [Prod.ext_iff]

/-! ## C1: instance-level RNG breaks snapshot determinism -/

theorem generatePlanetData_radius (g : PlanetGenerator) (day : Nat) :
    (generatePlanetData g day).1.radius =
      (calculateRadius (calculateStage day) g.rng).1 := rfl

theorem generatePlanetData_snd (g : PlanetGenerator) (day : Nat) :
    (generatePlanetData g day).2 =
      ⟨g.seed, (calculateRadius (calculateStage day) g.rng).2⟩ := rfl

theorem calculateStage_sixty : calculateStage 60 = PlanetStage.mature := by
  decide

/-- C1 (code bug): calling `generatePlanetData` a second time for the same
`(seed, day)` on the same generator yields a different `radius`:
`calculateRadius` draws from the instance-level `this.rng`, which advances
across calls, contradicting the determinism contract (and the method's own
comment that a fresh per-day generator is used to ensure determinism).
Failing input: seed `"Terra-1000"`, day 60, two successive calls. -/
theorem generatePlanetData_second_call_differs :
    (generatePlanetData (newPlanetGenerator "Terra-1000") 60).1.radius ≠
      (generatePlanetData
        ((generatePlanetData (newPlanetGenerator "Terra-1000") 60).2) 60).1.radius := by
  simp only [generatePlanetData_radius, generatePlanetData_snd]
  rw [show newPlanetGenerator "Terra-1000" =
    ⟨"Terra-1000", seedrandom "Terra-1000"⟩ from rfl]
  rw [seedrandom_terra, calculateStage_sixty]
  simp only [calculateRadius, STAGE_SIZES, terraDraw1, terraDraw2]
  rw [max_eq_right (by norm_num), max_eq_right (by norm_num)]
  norm_num

/-! ## C3: the stored `probability` is not the deciding roll -/

/-- The raw per-day roll that decides whether an event occurs on `day`:
the first draw of `seedrandom(`⟨seed⟩-events-⟨day⟩`)`, compared against
the day-band probability in `generateEventsHistory`. -/
def decidingRoll (seed : String) (day : Nat) : ℚ :=
  (prngNext (seedrandom (seed ++ "-events-" ++ Nat.repr day))).1

/-- Number of stream draws `generateEventImpact` consumes per type. -/
def impactDrawCount : EventType → Nat
  | .comet => 2
  | .solar_flare => 2
  | .volcanic => 2
  | _ => 1

theorem eventsString_w : "w" ++ "-events-" ++ Nat.repr 1 = "w-events-1" := by
  decide

theorem eventForDay_def (s : String) (d : Nat) :
    eventForDay s d = eventRollFor d (seedrandom (s ++ "-events-" ++ Nat.repr d)) := rfl

theorem decidingRoll_def (s : String) (d : Nat) :
    decidingRoll s d = (prngNext (seedrandom (s ++ "-events-" ++ Nat.repr d))).1 := rfl

theorem eventsHistory_one (s : String) :
    generateEventsHistory s 1 = List.filterMap (eventForDay s) [1] := rfl

/-- The event generated for seed `"w"` on day 1 (concretely evaluated). -/
def eventW1 : IPlanetEvent where
  id := "event-1-aurora"
  type := .aurora
  title := "Плазменные танцы"
  description := "Магнитное поле создает световое шоу"
  day := 1
  impact := ⟨none, none, none, some ((2204326880358347 : ℚ) / 180143985094819840), none⟩
  duration := 1
  probability := (875147482176597 : ℚ) / 18014398509481984

theorem wevTypeIdx :
    Int.toNat ⌊(((8313627383476064 : ℚ) + ((28 : ℕ) : ℚ)) / (9007199254740992 : ℚ)) * ((eventTypesList.length : ℕ) : ℚ)⌋ = 6 := by
  norm_num [eventTypesList]
  decide

theorem wevType : eventTypesList.getD 6 EventType.comet = EventType.aurora := by
  decide

theorem wevDesc :
    generateEventDescription EventType.aurora wevSt3 =
      ("Магнитное поле создает световое шоу", wevSt4) := by
  simp only [generateEventDescription, wevDraw4]
  norm_num

theorem wevImpact :
    generateEventImpact EventType.aurora wevSt4 =
      (⟨none, none, none, some ((((8817307521433344 : ℚ) + ((44 : ℕ) : ℚ)) / (36028797018963968 : ℚ)) * 0.05), none⟩, wevSt5) := by
  simp only [generateEventImpact, wevDraw5, emptyImpact]

theorem generateEvent_w1 : (generateEvent 1 wevSt1).1 = eventW1 := by
  simp only [generateEvent, wevDraw2, wevDraw3]
  rw [wevTypeIdx, wevType, wevDesc, wevImpact]
  simp only [wevDraw6, wevDraw7]
  rw [show eventW1 = (⟨"event-1-aurora", EventType.aurora, "Плазменные танцы",
    "Магнитное поле создает световое шоу", 1,
    ⟨none, none, none, some ((2204326880358347 : ℚ) / 180143985094819840), none⟩, 1,
    (875147482176597 : ℚ) / 18014398509481984⟩ : IPlanetEvent) from rfl]
  simp only [IPlanetEvent.mk.injEq, IEventImpact.mk.injEq]
  refine ⟨by decide, trivial, ?_, trivial, trivial,
    ⟨trivial, trivial, trivial, by norm_num, trivial⟩, ?_, by norm_num⟩
  · rw [show Int.toNat ⌊(((5302531774150880 : ℚ) + ((3 : ℕ) : ℚ)) / (9007199254740992 : ℚ)) * (((EVENT_NAMES EventType.aurora).length : ℕ) : ℚ)⌋ = 2
      from by norm_num [EVENT_NAMES]; decide]
    decide
  · rw [show Int.toNat ⌊(((7284830703860480 : ℚ) + ((51 : ℕ) : ℚ)) / (36028797018963968 : ℚ)) * (3 : ℚ)⌋ = 0 from by norm_num]

theorem eventForDay_w1 : eventForDay "w" 1 = some eventW1 := by
  have hroll : (prngNext wevSt0).1 <
      (if 1 > 30 then EVENT_PROBABILITIES.late
       else if 1 > 7 then EVENT_PROBABILITIES.middle
       else EVENT_PROBABILITIES.early) := by
    rw [wevDraw1]
    norm_num [EVENT_PROBABILITIES]
  rw [eventForDay_def, eventsString_w, seedrandom_wev]
  simp only [eventRollFor]
  rw [if_pos hroll]
  rw [show (prngNext wevSt0).2 = wevSt1 from by rw [wevDraw1]]
  rw [generateEvent_w1]

theorem eventsHistory_w_eval : generateEventsHistory "w" 1 = [eventW1] := by
  rw [eventsHistory_one]
  simp only [List.filterMap_cons, List.filterMap_nil, eventForDay_w1]

/-- C3 (counterexample): for seed `"w"`, day 1, an event is generated
whose stored `probability` field is not the raw roll that decided its
occurrence — `generateEvent` records a fresh later draw instead. -/
theorem event_probability_not_deciding_roll :
    (generateEventsHistory "w" 1).map (fun e => (e.day, e.probability)) =
      [(1, (875147482176597 : ℚ) / 18014398509481984)] ∧
      decidingRoll "w" 1 ≠ (875147482176597 : ℚ) / 18014398509481984 := by
  constructor
  · rw [eventsHistory_w_eval]
    simp [eventW1]
  · rw [decidingRoll_def, eventsString_w, seedrandom_wev]
    simp only [wevDraw1]
    norm_num

theorem drawsFrom_succ (st : ArcState) (n : Nat) :
    drawsFrom st (n + 1) = drawsFrom (prngNext st).2 n := rfl

theorem probability_draw_of_type (day : Nat) (st : ArcState) (t : EventType)
    (ht : t = (generateEvent day st).1.type) :
    (generateEvent day st).1.probability =
      drawsFrom st (4 + impactDrawCount t) := by
  unfold generateEvent at ht ⊢
  dsimp only at ht ⊢
  rw [← ht]
  cases t <;> rfl

/-- C3 (amended): for every generated event, the stored `probability`
field is a fresh later draw from the same per-day stream — the draw taken
after the type, title, description, impact and duration draws (stream
index `5 + impactDrawCount type`, 0-indexed) — not the deciding roll
(stream index 0). -/
theorem event_probability_is_later_draw (s : String) (maxDay : Nat) :
    ∀ e ∈ generateEventsHistory s maxDay,
      e.probability = nthDrawOf (s ++ "-events-" ++ Nat.repr e.day)
        (5 + impactDrawCount e.type) := by
  intro e he
  unfold generateEventsHistory at he
  obtain ⟨d, _, hde⟩ := List.mem_filterMap.mp he
  unfold eventForDay eventRollFor at hde
  rcases ite_eq_iff.mp hde with ⟨_, heq⟩ | ⟨_, heq⟩
  · injection heq with heq
    subst heq
    simp only [generateEvent_day]
    unfold nthDrawOf
    rw [show 5 + impactDrawCount
          (generateEvent d (prngNext (seedrandom (s ++ "-events-" ++ Nat.repr d))).2).1.type =
        (4 + impactDrawCount
          (generateEvent d (prngNext (seedrandom (s ++ "-events-" ++ Nat.repr d))).2).1.type) + 1
      from by omega]
    rw [drawsFrom_succ]
    exact probability_draw_of_type d _ _ rfl
  · cases heq

/-- A default `IPlanetEvent` (only used to take the head of a concrete
nonempty event list). -/
def defaultEvent : IPlanetEvent :=
  ⟨"", .comet, "", "", 0, emptyImpact, 0, 0⟩

/-- Witness for `event_probability_is_later_draw` at seed `"w"`,
`maxDay = 1` (the generated day-1 event). -/
theorem event_probability_is_later_draw_witness :
    ((generateEventsHistory "w" 1).headD defaultEvent).probability =
      nthDrawOf ("w" ++ "-events-" ++
          Nat.repr ((generateEventsHistory "w" 1).headD defaultEvent).day)
        (5 + impactDrawCount ((generateEventsHistory "w" 1).headD defaultEvent).type) :=
  event_probability_is_later_draw "w" 1 _ (by rw [eventsHistory_w_eval]; simp)

/-! ## Terrain: loop closed forms -/

theorem influence_nonneg (m : TerrainMutation) (dir : Vec3) :
    0 ≤ influence m dir :=
  le_max_left 0 _

set_option linter.unnecessarySeqFocus false in
theorem foldl_muStep_eq (dir : Vec3) :
    ∀ (l : List TerrainMutation) (a : ℝ × ℝ),
      l.foldl (muStep dir) a =
        (a.1 + ((l.filter (fun m => m.type = MutationType.volcanic)).map
            (fun m => m.strength * influence m dir)).sum,
         a.2 + ((l.filter (fun m => m.type = MutationType.meteor)).map
            (fun m => m.strength * influence m dir)).sum) := by
  intro l
  induction l with
  | nil => intro a; simp
  | cons m l ih =>
    intro a
    rw [List.foldl_cons, ih (muStep dir a m)]
    by_cases hz : influence m dir ≤ 0
    · have h0 : influence m dir = 0 := le_antisymm hz (influence_nonneg m dir)
      have hms : muStep dir a m = a := by
        unfold muStep
        rw [if_pos hz]
      rw [hms]
      cases htype : m.type <;> simp [List.filter_cons, htype, h0]
    · cases htype : m.type
      · have hms : muStep dir a m = (a.1 + m.strength * influence m dir, a.2) := by
          unfold muStep
          rw [if_neg hz, htype]
        rw [hms]
        refine Prod.ext ?_ ?_ <;> simp [List.filter_cons, htype] <;> ring
      · have hms : muStep dir a m = (a.1, a.2 + m.strength * influence m dir) := by
          unfold muStep
          rw [if_neg hz, htype]
        rw [hms]
        refine Prod.ext ?_ ?_ <;> simp [List.filter_cons, htype] <;> ring

theorem mutationOffsets_eq (muts : List TerrainMutation) (dir : Vec3) :
    mutationOffsets muts dir =
      (((muts.filter (fun m => m.type = MutationType.volcanic)).map
          (fun m => m.strength * influence m dir)).sum,
       ((muts.filter (fun m => m.type = MutationType.meteor)).map
          (fun m => m.strength * influence m dir)).sum) := by
  unfold mutationOffsets
  rw [foldl_muStep_eq dir muts (0, 0)]
  simp

set_option linter.unnecessarySeqFocus false in
theorem foldl_avgStep_eq (dir : Vec3) :
    ∀ (l : List TerrainMutation) (a : ℝ × ℝ),
      l.foldl (avgStep dir) a =
        (a.1 + ((l.filter (fun m => m.type = MutationType.volcanic)).map
            (fun m => influence m dir / 3)).sum,
         a.2 + ((l.filter (fun m => m.type = MutationType.meteor)).map
            (fun m => influence m dir / 3)).sum) := by
  intro l
  induction l with
  | nil => intro a; simp
  | cons m l ih =>
    intro a
    rw [List.foldl_cons, ih (avgStep dir a m)]
    cases htype : m.type
    · have hms : avgStep dir a m = (a.1 + influence m dir / 3, a.2) := by
        unfold avgStep
        rw [htype]
      rw [hms]
      refine Prod.ext ?_ ?_ <;> simp [List.filter_cons, htype] <;> ring
    · have hms : avgStep dir a m = (a.1, a.2 + influence m dir / 3) := by
        unfold avgStep
        rw [htype]
      rw [hms]
      refine Prod.ext ?_ ?_ <;> simp [List.filter_cons, htype] <;> ring

theorem faceAvgInfluences_eq (muts : List TerrainMutation) (dirs : List Vec3) :
    faceAvgInfluences muts dirs =
      ((dirs.map (fun dir =>
          ((muts.filter (fun m => m.type = MutationType.volcanic)).map
            (fun m => influence m dir / 3)).sum)).sum,
       (dirs.map (fun dir =>
          ((muts.filter (fun m => m.type = MutationType.meteor)).map
            (fun m => influence m dir / 3)).sum)).sum) := by
  unfold faceAvgInfluences
  have haux : ∀ (ds : List Vec3) (a : ℝ × ℝ),
      ds.foldl (fun acc dir => muts.foldl (avgStep dir) acc) a =
        (a.1 + (ds.map (fun dir =>
            ((muts.filter (fun m => m.type = MutationType.volcanic)).map
              (fun m => influence m dir / 3)).sum)).sum,
         a.2 + (ds.map (fun dir =>
            ((muts.filter (fun m => m.type = MutationType.meteor)).map
              (fun m => influence m dir / 3)).sum)).sum) := by
    intro ds
    induction ds with
    | nil => intro a; simp
    | cons dir ds ih =>
      intro a
      rw [List.foldl_cons, ih, foldl_avgStep_eq dir muts a]
      refine Prod.ext ?_ ?_ <;> simp <;> ring
  rw [haux]
  simp

/-! ## Terrain: concrete inputs and vector evaluation lemmas -/

/-- A constant `noise3D` sampler returning `1` everywhere, so every raw
noise value is `(1 + 1) / 2 = 1`. -/
def noiseConst1 : ℝ → ℝ → ℝ → ℝ := fun _ _ _ => 1

/-- A noise configuration with `noiseD = 0` (no noise displacement) and
water threshold `0`, so every face classifies as ground. -/
def confFlat : NoiseConfig := ⟨1, 0, 0, 0⟩

/-- A unit-strength volcanic mutation of radius `1` centred on the
`z`-axis pole. -/
def mutUnit : TerrainMutation := ⟨.volcanic, ⟨0, 0, 1⟩, 1, 1⟩

/-- A volcanic mutation centred on the pole whose radius `10π/13` makes
the influence at a point a quarter-turn away exactly `7/20 = 0.35`. -/
noncomputable def mutC6 : TerrainMutation :=
  ⟨.volcanic, ⟨0, 0, 1⟩, 10 * Real.pi / 13, 1⟩

/-- A volcanic mutation whose radius `0.00005` is below the code's
`Math.max(0.0001, m.radius)` clamp, centred at angle `0.00007` from the
`x`-axis. -/
noncomputable def mutTiny : TerrainMutation :=
  ⟨.volcanic, ⟨Real.cos 0.00007, Real.sin 0.00007, 0⟩, 0.00005, 1⟩

theorem Vec3.add_scale_zero (a b : Vec3) : a.add (b.scale 0) = a := by
  simp [Vec3.add, Vec3.scale]

theorem noiseDisplaced_noiseD_zero (noise3D : ℝ → ℝ → ℝ → ℝ) (time : ℝ)
    (conf : NoiseConfig) (v : Vec3) (h : conf.noiseD = 0) :
    noiseDisplaced noise3D time conf v = v := by
  unfold noiseDisplaced
  rw [h]
  show v.add (v.normalize.scale
    (thresholdedNoise conf (rawNoise noise3D time conf.noiseF v) * 0)) = v
  rw [mul_zero, Vec3.add_scale_zero]

theorem normalize_xAxis (t : ℝ) (ht : 0 < t) :
    Vec3.normalize ⟨t, 0, 0⟩ = ⟨1, 0, 0⟩ := by
  unfold Vec3.normalize Vec3.length
  have harg : t * t + 0 * 0 + 0 * 0 = t * t := by ring
  rw [show (⟨t, 0, 0⟩ : Vec3).x = t from rfl, show (⟨t, 0, 0⟩ : Vec3).y = 0 from rfl,
    show (⟨t, 0, 0⟩ : Vec3).z = 0 from rfl, harg, Real.sqrt_mul_self ht.le,
    if_neg ht.ne']
  simp [Vec3.scale]
  field_simp

theorem normalize_negxAxis (t : ℝ) (ht : 0 < t) :
    Vec3.normalize ⟨-t, 0, 0⟩ = ⟨-1, 0, 0⟩ := by
  unfold Vec3.normalize Vec3.length
  have harg : -t * -t + 0 * 0 + 0 * 0 = t * t := by ring
  rw [show (⟨-t, 0, 0⟩ : Vec3).x = -t from rfl, show (⟨-t, 0, 0⟩ : Vec3).y = 0 from rfl,
    show (⟨-t, 0, 0⟩ : Vec3).z = 0 from rfl, harg, Real.sqrt_mul_self ht.le,
    if_neg ht.ne']
  simp [Vec3.scale]
  field_simp

theorem normalize_yAxis (t : ℝ) (ht : 0 < t) :
    Vec3.normalize ⟨0, t, 0⟩ = ⟨0, 1, 0⟩ := by
  unfold Vec3.normalize Vec3.length
  have harg : 0 * 0 + t * t + 0 * 0 = t * t := by ring
  rw [show (⟨0, t, 0⟩ : Vec3).x = 0 from rfl, show (⟨0, t, 0⟩ : Vec3).y = t from rfl,
    show (⟨0, t, 0⟩ : Vec3).z = 0 from rfl, harg, Real.sqrt_mul_self ht.le,
    if_neg ht.ne']
  simp [Vec3.scale]
  field_simp

theorem normalize_zAxis (t : ℝ) (ht : 0 < t) :
    Vec3.normalize ⟨0, 0, t⟩ = ⟨0, 0, 1⟩ := by
  unfold Vec3.normalize Vec3.length
  have harg : 0 * 0 + 0 * 0 + t * t = t * t := by ring
  rw [show (⟨0, 0, t⟩ : Vec3).x = 0 from rfl, show (⟨0, 0, t⟩ : Vec3).y = 0 from rfl,
    show (⟨0, 0, t⟩ : Vec3).z = t from rfl, harg, Real.sqrt_mul_self ht.le,
    if_neg ht.ne']
  simp [Vec3.scale]
  field_simp

theorem normalize_of_length_one (a : Vec3) (h : a.length = 1) :
    a.normalize = a := by
  unfold Vec3.normalize
  rw [h, if_neg one_ne_zero]
  simp [Vec3.scale]

theorem mutTiny_center_normalize :
    Vec3.normalize mutTiny.center = mutTiny.center := by
  apply normalize_of_length_one
  unfold Vec3.length
  have harg : mutTiny.center.x * mutTiny.center.x +
      mutTiny.center.y * mutTiny.center.y +
      mutTiny.center.z * mutTiny.center.z = 1 := by
    show Real.cos 0.00007 * Real.cos 0.00007 +
      Real.sin 0.00007 * Real.sin 0.00007 + 0 * 0 = 1
    have := Real.sin_sq_add_cos_sq 0.00007
    nlinarith [this]
  rw [harg, Real.sqrt_one]

theorem displacedVertex_eq (noise3D : ℝ → ℝ → ℝ → ℝ) (time : ℝ)
    (conf : NoiseConfig) (muts : List TerrainMutation) (v : Vec3) :
    displacedVertex noise3D time conf muts v =
      Vec3.add (noiseDisplaced noise3D time conf v)
        (Vec3.scale (Vec3.normalize (noiseDisplaced noise3D time conf v))
          (((muts.filter (fun m => m.type = MutationType.volcanic)).map
              (fun m => m.strength *
                influence m (Vec3.normalize (noiseDisplaced noise3D time conf v)))).sum -
           ((muts.filter (fun m => m.type = MutationType.meteor)).map
              (fun m => m.strength *
                influence m (Vec3.normalize (noiseDisplaced noise3D time conf v)))).sum)) := by
  unfold displacedVertex
  cases muts with
  | nil =>
    simp only [List.isEmpty_nil, if_true, List.filter_nil, List.map_nil,
      List.sum_nil, sub_zero, Vec3.add_scale_zero]
  | cons m l =>
    simp only [List.isEmpty_cons, Bool.false_eq_true, if_false]
    rw [mutationOffsets_eq]
    by_cases hg :
        ((((m :: l).filter (fun m => m.type = MutationType.volcanic)).map
            (fun m => m.strength *
              influence m (Vec3.normalize (noiseDisplaced noise3D time conf v)))).sum ≠ 0 ∨
         (((m :: l).filter (fun m => m.type = MutationType.meteor)).map
            (fun m => m.strength *
              influence m (Vec3.normalize (noiseDisplaced noise3D time conf v)))).sum ≠ 0)
    · rw [if_pos hg]
    · rw [if_neg hg]
      push_neg at hg
      rw [hg.1, hg.2, sub_zero, Vec3.add_scale_zero]

theorem influence_eq_zero (m : TerrainMutation) (dir : Vec3)
    (h : max 0.0001 m.radius ≤
      Real.arccos (min 1 (max (-1) (Vec3.dot dir (Vec3.normalize m.center))))) :
    influence m dir = 0 := by
  unfold influence
  apply max_eq_left
  have hpos : (0 : ℝ) < max 0.0001 m.radius :=
    lt_of_lt_of_le (by norm_num) (le_max_left _ _)
  have h1 : (1 : ℝ) ≤
      Real.arccos (min 1 (max (-1) (Vec3.dot dir (Vec3.normalize m.center)))) /
        max 0.0001 m.radius :=
    (one_le_div hpos).mpr h
  linarith

theorem influence_def (m : TerrainMutation) (dir : Vec3) :
    influence m dir =
      max 0 (1 - Real.arccos (min 1 (max (-1)
        (Vec3.dot dir (Vec3.normalize m.center)))) / max 0.0001 m.radius) :=
  rfl

theorem influence_mutTiny : influence mutTiny ⟨1, 0, 0⟩ = 3 / 10 := by
  rw [influence_def, mutTiny_center_normalize]
  have hdot : Vec3.dot ⟨1, 0, 0⟩ mutTiny.center = Real.cos 0.00007 := by
    show 1 * Real.cos 0.00007 + 0 * Real.sin 0.00007 + 0 * 0 = Real.cos 0.00007
    ring
  have hclamp : min 1 (max (-1) (Real.cos 0.00007)) = Real.cos 0.00007 := by
    rw [max_eq_right (Real.neg_one_le_cos 0.00007),
      min_eq_right (Real.cos_le_one 0.00007)]
  rw [hdot, hclamp, Real.arccos_cos (by norm_num)
    (by linarith [Real.pi_gt_three]), show mutTiny.radius = 0.00005 from rfl,
    show (max 0.0001 0.00005 : ℝ) = 0.0001 from max_eq_left (by norm_num),
    show (1 : ℝ) - 0.00007 / 0.0001 = 3 / 10 by norm_num,
    max_eq_right (by norm_num)]

theorem influence_mutUnit_pole : influence mutUnit ⟨0, 0, 1⟩ = 1 := by
  rw [influence_def, show mutUnit.center = ⟨0, 0, 1⟩ from rfl,
    normalize_zAxis 1 one_pos]
  have hdot : Vec3.dot ⟨0, 0, 1⟩ (⟨0, 0, 1⟩ : Vec3) = 1 := by
    show 0 * 0 + 0 * 0 + 1 * 1 = 1
    ring
  rw [hdot, show (max (-1 : ℝ) 1) = 1 from max_eq_right (by norm_num),
    min_self, Real.arccos_one, zero_div, sub_zero,
    max_eq_right (by norm_num : (0 : ℝ) ≤ 1)]

theorem influence_mutC6_equator (dir : Vec3)
    (h : Vec3.dot dir (⟨0, 0, 1⟩ : Vec3) = 0) :
    influence mutC6 dir = 7 / 20 := by
  rw [influence_def, show mutC6.center = ⟨0, 0, 1⟩ from rfl,
    normalize_zAxis 1 one_pos, h]
  have hpi : (0.0001 : ℝ) ≤ 10 * Real.pi / 13 := by
    have := Real.pi_gt_three
    linarith
  have hdiv : Real.pi / 2 / (10 * Real.pi / 13) = 13 / 20 := by
    field_simp [Real.pi_ne_zero]
    ring
  rw [max_eq_right (by norm_num : (-1 : ℝ) ≤ 0),
    min_eq_right (by norm_num : (0 : ℝ) ≤ 1), Real.arccos_zero,
    show mutC6.radius = 10 * Real.pi / 13 from rfl, max_eq_right hpi, hdiv,
    show (1 : ℝ) - 13 / 20 = 7 / 20 by norm_num, max_eq_right (by norm_num)]

/-- C7 (counterexample): the claimed influence formula
`max(0, 1 - angle / radius)` disagrees with the code for the mutation
`mutTiny` (radius `0.00005`) at vertex direction `(1,0,0)` (angle
`0.00007`): the code's `Math.max(0.0001, m.radius)` clamp yields influence
`3/10`, while the claimed formula yields `0`. -/
theorem influence_not_unclamped_formula :
    influence mutTiny ⟨1, 0, 0⟩ = 3 / 10 ∧
    max 0 (1 - Real.arccos (min 1 (max (-1)
      (Vec3.dot ⟨1, 0, 0⟩ (Vec3.normalize mutTiny.center)))) / mutTiny.radius) = 0 ∧
    influence mutTiny ⟨1, 0, 0⟩ ≠
      max 0 (1 - Real.arccos (min 1 (max (-1)
        (Vec3.dot ⟨1, 0, 0⟩ (Vec3.normalize mutTiny.center)))) / mutTiny.radius) := by
  have hdot : Vec3.dot ⟨1, 0, 0⟩ mutTiny.center = Real.cos 0.00007 := by
    show 1 * Real.cos 0.00007 + 0 * Real.sin 0.00007 + 0 * 0 = Real.cos 0.00007
    ring
  have h2 : max 0 (1 - Real.arccos (min 1 (max (-1)
      (Vec3.dot ⟨1, 0, 0⟩ (Vec3.normalize mutTiny.center)))) / mutTiny.radius) = 0 := by
    rw [mutTiny_center_normalize, hdot,
      max_eq_right (Real.neg_one_le_cos 0.00007),
      min_eq_right (Real.cos_le_one 0.00007),
      Real.arccos_cos (by norm_num) (by linarith [Real.pi_gt_three]),
      show mutTiny.radius = 0.00005 from rfl,
      show (1 : ℝ) - 0.00007 / 0.00005 = -(2 / 5) by norm_num]
    exact max_eq_left (by norm_num)
  refine ⟨influence_mutTiny, h2, ?_⟩
  rw [influence_mutTiny, h2]
  norm_num

/-- C7 (amended): for every vertex, the final position equals the
noise-displaced position plus, along its unit direction, the sum over
volcanic mutations of `strength * max(0, 1 - angle / max(0.0001, radius))`
minus the same sum over meteor mutations, where `angle` is the arccosine
of the clamped dot product of that direction with the mutation's unit
centre — the claim's linear falloff holds only with the radius clamped
below by `0.0001`. -/
theorem displacedVertex_sums_clamped_influences (noise3D : ℝ → ℝ → ℝ → ℝ)
    (time : ℝ) (conf : NoiseConfig) (muts : List TerrainMutation) (v : Vec3) :
    displacedVertex noise3D time conf muts v =
      Vec3.add (noiseDisplaced noise3D time conf v)
        (Vec3.scale (Vec3.normalize (noiseDisplaced noise3D time conf v))
          (((muts.filter (fun m => m.type = MutationType.volcanic)).map
              (fun m => m.strength * max 0 (1 -
                Real.arccos (min 1 (max (-1)
                  (Vec3.dot (Vec3.normalize (noiseDisplaced noise3D time conf v))
                    (Vec3.normalize m.center)))) / max 0.0001 m.radius))).sum -
           ((muts.filter (fun m => m.type = MutationType.meteor)).map
              (fun m => m.strength * max 0 (1 -
                Real.arccos (min 1 (max (-1)
                  (Vec3.dot (Vec3.normalize (noiseDisplaced noise3D time conf v))
                    (Vec3.normalize m.center)))) / max 0.0001 m.radius))).sum)) := by
  rw [displacedVertex_eq]
  simp only [influence_def]

theorem displacedVertex_of_influence_zero (noise3D : ℝ → ℝ → ℝ → ℝ)
    (time : ℝ) (conf : NoiseConfig) (muts : List TerrainMutation) (v : Vec3)
    (h : ∀ m ∈ muts,
      influence m (Vec3.normalize (noiseDisplaced noise3D time conf v)) = 0) :
    displacedVertex noise3D time conf muts v = noiseDisplaced noise3D time conf v := by
  rw [displacedVertex_eq]
  have hv : ((muts.filter (fun m => m.type = MutationType.volcanic)).map
      (fun m => m.strength *
        influence m (Vec3.normalize (noiseDisplaced noise3D time conf v)))).sum = 0 := by
    apply List.sum_eq_zero
    intro x hx
    rcases List.mem_map.mp hx with ⟨m, hm, rfl⟩
    rw [h m (List.mem_of_mem_filter hm), mul_zero]
  have hm : ((muts.filter (fun m => m.type = MutationType.meteor)).map
      (fun m => m.strength *
        influence m (Vec3.normalize (noiseDisplaced noise3D time conf v)))).sum = 0 := by
    apply List.sum_eq_zero
    intro x hx
    rcases List.mem_map.mp hx with ⟨m, hm2, rfl⟩
    rw [h m (List.mem_of_mem_filter hm2), mul_zero]
  rw [hv, hm, sub_zero, Vec3.add_scale_zero]

theorem faceOverrideColor_of_influence_zero (muts : List TerrainMutation)
    (dirs : List Vec3) (h : ∀ m ∈ muts, ∀ dir ∈ dirs, influence m dir = 0) :
    faceOverrideColor muts dirs = none := by
  cases muts with
  | nil => rfl
  | cons m l =>
    have havg : faceAvgInfluences (m :: l) dirs = (0, 0) := by
      rw [faceAvgInfluences_eq]
      refine Prod.ext ?_ ?_ <;>
        · dsimp only
          apply List.sum_eq_zero
          intro x hx
          rcases List.mem_map.mp hx with ⟨dir, hdir, rfl⟩
          apply List.sum_eq_zero
          intro y hy
          rcases List.mem_map.mp hy with ⟨m2, hm2, rfl⟩
          rw [h m2 (List.mem_of_mem_filter hm2) dir hdir, zero_div]
    unfold faceOverrideColor
    simp only [List.isEmpty_cons, Bool.false_eq_true, if_false]
    rw [havg]
    show (if ((0 : ℝ), (0 : ℝ)).1 > 0.35 then some FaceColor.lava
      else if ((0 : ℝ), (0 : ℝ)).2 > 0.35 then some FaceColor.ash else none) = none
    norm_num

/-- C10 (amended): a vertex whose noise-displaced unit direction has angular
distance at least `max(0.0001, m.radius)` from the centre of every mutation
`m` — the claim's `m.radius` alone does not suffice below the code's
`0.0001` radius clamp — receives the same final position as with an empty
mutation list, and a face all three of whose vertices are so situated
receives the same colour as with an empty mutation list. -/
theorem mutation_frame_property (noise3D : ℝ → ℝ → ℝ → ℝ) (time : ℝ)
    (conf : NoiseConfig) (muts : List TerrainMutation) (v0 v1 v2 : Vec3)
    (h0 : ∀ m ∈ muts, max 0.0001 m.radius ≤
      Real.arccos (min 1 (max (-1)
        (Vec3.dot (Vec3.normalize (noiseDisplaced noise3D time conf v0))
          (Vec3.normalize m.center)))))
    (h1 : ∀ m ∈ muts, max 0.0001 m.radius ≤
      Real.arccos (min 1 (max (-1)
        (Vec3.dot (Vec3.normalize (noiseDisplaced noise3D time conf v1))
          (Vec3.normalize m.center)))))
    (h2 : ∀ m ∈ muts, max 0.0001 m.radius ≤
      Real.arccos (min 1 (max (-1)
        (Vec3.dot (Vec3.normalize (noiseDisplaced noise3D time conf v2))
          (Vec3.normalize m.center))))) :
    displacedVertex noise3D time conf muts v0 =
      displacedVertex noise3D time conf [] v0 ∧
    displacedVertex noise3D time conf muts v1 =
      displacedVertex noise3D time conf [] v1 ∧
    displacedVertex noise3D time conf muts v2 =
      displacedVertex noise3D time conf [] v2 ∧
    faceColor noise3D time conf muts v0 v1 v2 =
      faceColor noise3D time conf [] v0 v1 v2 := by
  have hz0 : ∀ m ∈ muts,
      influence m (Vec3.normalize (noiseDisplaced noise3D time conf v0)) = 0 :=
    fun m hm => influence_eq_zero m _ (h0 m hm)
  have hz1 : ∀ m ∈ muts,
      influence m (Vec3.normalize (noiseDisplaced noise3D time conf v1)) = 0 :=
    fun m hm => influence_eq_zero m _ (h1 m hm)
  have hz2 : ∀ m ∈ muts,
      influence m (Vec3.normalize (noiseDisplaced noise3D time conf v2)) = 0 :=
    fun m hm => influence_eq_zero m _ (h2 m hm)
  have hdv0 := displacedVertex_of_influence_zero noise3D time conf muts v0 hz0
  have hdv1 := displacedVertex_of_influence_zero noise3D time conf muts v1 hz1
  have hdv2 := displacedVertex_of_influence_zero noise3D time conf muts v2 hz2
  have hnil0 : displacedVertex noise3D time conf [] v0 =
      noiseDisplaced noise3D time conf v0 := rfl
  have hnil1 : displacedVertex noise3D time conf [] v1 =
      noiseDisplaced noise3D time conf v1 := rfl
  have hnil2 : displacedVertex noise3D time conf [] v2 =
      noiseDisplaced noise3D time conf v2 := rfl
  refine ⟨hdv0.trans hnil0.symm, hdv1.trans hnil1.symm, hdv2.trans hnil2.symm, ?_⟩
  have hdirs : faceDirs noise3D time conf muts v0 v1 v2 =
      [Vec3.normalize (noiseDisplaced noise3D time conf v0),
       Vec3.normalize (noiseDisplaced noise3D time conf v1),
       Vec3.normalize (noiseDisplaced noise3D time conf v2)] := by
    unfold faceDirs
    rw [hdv0, hdv1, hdv2]
  have hovm : faceOverrideColor muts
      (faceDirs noise3D time conf muts v0 v1 v2) = none := by
    rw [hdirs]
    apply faceOverrideColor_of_influence_zero
    intro m hm dir hdir
    simp only [List.mem_cons, List.not_mem_nil, or_false] at hdir
    rcases hdir with hdir | hdir | hdir <;> subst hdir
    · exact hz0 m hm
    · exact hz1 m hm
    · exact hz2 m hm
  have hovn : faceOverrideColor []
      (faceDirs noise3D time conf [] v0 v1 v2) = none := rfl
  unfold faceColor
  rw [hovm, hovn]

theorem mutation_frame_property_witness :
    displacedVertex noiseConst1 0 confFlat [mutUnit] ⟨1, 0, 0⟩ =
      displacedVertex noiseConst1 0 confFlat [] ⟨1, 0, 0⟩ ∧
    displacedVertex noiseConst1 0 confFlat [mutUnit] ⟨0, 1, 0⟩ =
      displacedVertex noiseConst1 0 confFlat [] ⟨0, 1, 0⟩ ∧
    displacedVertex noiseConst1 0 confFlat [mutUnit] ⟨-1, 0, 0⟩ =
      displacedVertex noiseConst1 0 confFlat [] ⟨-1, 0, 0⟩ ∧
    faceColor noiseConst1 0 confFlat [mutUnit] ⟨1, 0, 0⟩ ⟨0, 1, 0⟩ ⟨-1, 0, 0⟩ =
      faceColor noiseConst1 0 confFlat [] ⟨1, 0, 0⟩ ⟨0, 1, 0⟩ ⟨-1, 0, 0⟩ := by
  have hgen : ∀ v : Vec3,
      Vec3.normalize (noiseDisplaced noiseConst1 0 confFlat v) = v →
      Vec3.dot v ⟨0, 0, 1⟩ = 0 →
      ∀ m ∈ [mutUnit], max 0.0001 m.radius ≤
        Real.arccos (min 1 (max (-1)
          (Vec3.dot (Vec3.normalize (noiseDisplaced noiseConst1 0 confFlat v))
            (Vec3.normalize m.center)))) := by
    intro v hn hd m hm
    simp only [List.mem_singleton] at hm
    subst hm
    rw [hn, show Vec3.normalize mutUnit.center = ⟨0, 0, 1⟩ from
        normalize_zAxis 1 one_pos, hd,
      max_eq_right (by norm_num : (-1 : ℝ) ≤ 0),
      min_eq_right (by norm_num : (0 : ℝ) ≤ 1), Real.arccos_zero,
      show mutUnit.radius = 1 from rfl,
      max_eq_right (by norm_num : (0.0001 : ℝ) ≤ 1)]
    linarith [Real.pi_gt_three]
  exact mutation_frame_property noiseConst1 0 confFlat [mutUnit]
    ⟨1, 0, 0⟩ ⟨0, 1, 0⟩ ⟨-1, 0, 0⟩
    (hgen _ (by
        rw [noiseDisplaced_noiseD_zero noiseConst1 0 confFlat _ rfl]
        exact normalize_xAxis 1 one_pos)
      (by
        show 1 * 0 + 0 * 0 + 0 * 1 = 0
        ring))
    (hgen _ (by
        rw [noiseDisplaced_noiseD_zero noiseConst1 0 confFlat _ rfl]
        exact normalize_yAxis 1 one_pos)
      (by
        show 0 * 0 + 1 * 0 + 0 * 1 = 0
        ring))
    (hgen _ (by
        rw [noiseDisplaced_noiseD_zero noiseConst1 0 confFlat _ rfl]
        exact normalize_negxAxis 1 one_pos)
      (by
        show -1 * 0 + 0 * 0 + 0 * 1 = 0
        ring))

/-- C10 (counterexample): for the mutation `mutTiny` (radius `0.00005`)
the vertex `(1,0,0)` sits at angular distance `0.00007 ≥ m.radius` from
the mutation centre, yet its final position `(1.3, 0, 0)` differs from the
empty-mutation-list position `(1, 0, 0)`: below the code's `0.0001` radius
clamp the claimed frame condition does not keep the vertex fixed. -/
theorem mutation_frame_radius_unclamped :
    mutTiny.radius ≤ Real.arccos (min 1 (max (-1)
      (Vec3.dot ⟨1, 0, 0⟩ (Vec3.normalize mutTiny.center)))) ∧
    displacedVertex noiseConst1 0 confFlat [mutTiny] ⟨1, 0, 0⟩ ≠
      displacedVertex noiseConst1 0 confFlat [] ⟨1, 0, 0⟩ := by
  have hdot : Vec3.dot ⟨1, 0, 0⟩ mutTiny.center = Real.cos 0.00007 := by
    show 1 * Real.cos 0.00007 + 0 * Real.sin 0.00007 + 0 * 0 = Real.cos 0.00007
    ring
  have hnd : noiseDisplaced noiseConst1 0 confFlat ⟨1, 0, 0⟩ = ⟨1, 0, 0⟩ :=
    noiseDisplaced_noiseD_zero noiseConst1 0 confFlat _ rfl
  constructor
  · rw [mutTiny_center_normalize, hdot,
      max_eq_right (Real.neg_one_le_cos 0.00007),
      min_eq_right (Real.cos_le_one 0.00007),
      Real.arccos_cos (by norm_num) (by linarith [Real.pi_gt_three]),
      show mutTiny.radius = 0.00005 from rfl]
    norm_num
  · have hL : displacedVertex noiseConst1 0 confFlat [mutTiny] ⟨1, 0, 0⟩ =
        ⟨13 / 10, 0, 0⟩ := by
      rw [displacedVertex_eq, hnd, normalize_xAxis 1 one_pos]
      simp only [List.filter_cons, List.filter_nil,
        show mutTiny.type = MutationType.volcanic from rfl]
      simp only [decide_eq_true_eq, reduceCtorEq, if_true, if_false,
        List.map_cons, List.map_nil, List.sum_cons, List.sum_nil]
      rw [influence_mutTiny, show mutTiny.strength = 1 from rfl]
      simp only [Vec3.add, Vec3.scale, Vec3.mk.injEq]
      norm_num
    have hR : displacedVertex noiseConst1 0 confFlat [] ⟨1, 0, 0⟩ =
        ⟨1, 0, 0⟩ := by
      rw [displacedVertex_eq, hnd]
      simp only [List.filter_nil, List.map_nil, List.sum_nil, sub_zero,
        Vec3.add_scale_zero]
    rw [hL, hR]
    intro hEq
    simp only [Vec3.mk.injEq] at hEq
    exact absurd hEq.1 (by norm_num)

/-- C6 (amended): absent a mutation override a face is coloured water
exactly when all three raw vertex noise samples are at or below the water
threshold; and any volcanic mutation with positive strength whose influence
averaged over the face's three displaced vertex directions **strictly
exceeds** `0.35` forces the lava colour — the code compares with `>`, not
the claim's `≥`. -/
theorem faceColor_water_iff_or_strict_lava (noise3D : ℝ → ℝ → ℝ → ℝ)
    (time : ℝ) (conf : NoiseConfig) (muts : List TerrainMutation)
    (v0 v1 v2 : Vec3) :
    (faceOverrideColor muts (faceDirs noise3D time conf muts v0 v1 v2) = none →
      (faceColor noise3D time conf muts v0 v1 v2 = FaceColor.water ↔
        faceIsWater noise3D time conf v0 v1 v2)) ∧
    (∀ m ∈ muts, m.type = MutationType.volcanic → 0 < m.strength →
      (0.35 : ℝ) < ((faceDirs noise3D time conf muts v0 v1 v2).map
        (fun dir => influence m dir / 3)).sum →
      faceColor noise3D time conf muts v0 v1 v2 = FaceColor.lava) := by
  constructor
  · intro hov
    by_cases hw : faceIsWater noise3D time conf v0 v1 v2
    · simp [faceColor, hov, hw]
    · simp [faceColor, hov, hw]
  · intro m hm htype _hstr havg
    have hne : muts.isEmpty = false := by
      cases muts with
      | nil => exact absurd hm (List.not_mem_nil m)
      | cons a l => rfl
    have hmemf : m ∈ muts.filter (fun m => m.type = MutationType.volcanic) :=
      List.mem_filter.mpr ⟨hm, by simp [htype]⟩
    have hpoint : ∀ dir ∈ faceDirs noise3D time conf muts v0 v1 v2,
        influence m dir / 3 ≤
          ((muts.filter (fun m => m.type = MutationType.volcanic)).map
            (fun m2 => influence m2 dir / 3)).sum := by
      intro dir _hdir
      apply List.single_le_sum
      · intro x hx
        rcases List.mem_map.mp hx with ⟨m2, _hm2, rfl⟩
        exact div_nonneg (influence_nonneg m2 dir) (by norm_num)
      · exact List.mem_map_of_mem _ hmemf
    have hsum : ((faceDirs noise3D time conf muts v0 v1 v2).map
        (fun dir => influence m dir / 3)).sum ≤
        ((faceDirs noise3D time conf muts v0 v1 v2).map (fun dir =>
          ((muts.filter (fun m => m.type = MutationType.volcanic)).map
            (fun m2 => influence m2 dir / 3)).sum)).sum :=
      List.sum_le_sum hpoint
    have h1 : (0.35 : ℝ) <
        (faceAvgInfluences muts (faceDirs noise3D time conf muts v0 v1 v2)).1 := by
      rw [faceAvgInfluences_eq]
      exact lt_of_lt_of_le havg hsum
    have hov : faceOverrideColor muts
        (faceDirs noise3D time conf muts v0 v1 v2) = some FaceColor.lava := by
      unfold faceOverrideColor
      rw [hne]
      simp only [Bool.false_eq_true, if_false]
      show (if (faceAvgInfluences muts
            (faceDirs noise3D time conf muts v0 v1 v2)).1 > 0.35
          then some FaceColor.lava
          else if (faceAvgInfluences muts
            (faceDirs noise3D time conf muts v0 v1 v2)).2 > 0.35
          then some FaceColor.ash else none) = some FaceColor.lava
      rw [if_pos h1]
    simp [faceColor, hov]

theorem faceColor_water_iff_or_strict_lava_witness :
    faceColor noiseConst1 0 confFlat [mutUnit] ⟨0, 0, 1⟩ ⟨0, 0, 1⟩ ⟨0, 0, 1⟩ =
      FaceColor.lava :=
  (faceColor_water_iff_or_strict_lava noiseConst1 0 confFlat [mutUnit]
      ⟨0, 0, 1⟩ ⟨0, 0, 1⟩ ⟨0, 0, 1⟩).2 mutUnit (List.mem_singleton.mpr rfl) rfl
    (by norm_num [mutUnit])
    (by
      have hdz : displacedVertex noiseConst1 0 confFlat [mutUnit] ⟨0, 0, 1⟩ =
          ⟨0, 0, 2⟩ := by
        rw [displacedVertex_eq,
          noiseDisplaced_noiseD_zero noiseConst1 0 confFlat _ rfl,
          normalize_zAxis 1 one_pos]
        simp only [List.filter_cons, List.filter_nil,
          show mutUnit.type = MutationType.volcanic from rfl]
        simp only [decide_eq_true_eq, reduceCtorEq, if_true, if_false,
          List.map_cons, List.map_nil, List.sum_cons, List.sum_nil]
        rw [influence_mutUnit_pole, show mutUnit.strength = 1 from rfl]
        simp only [Vec3.add, Vec3.scale, Vec3.mk.injEq]
        norm_num
      show (0.35 : ℝ) <
        ((faceDirs noiseConst1 0 confFlat [mutUnit] ⟨0, 0, 1⟩ ⟨0, 0, 1⟩
          ⟨0, 0, 1⟩).map (fun dir => influence mutUnit dir / 3)).sum
      unfold faceDirs
      rw [hdz, normalize_zAxis 2 (by norm_num)]
      simp only [List.map_cons, List.map_nil, List.sum_cons, List.sum_nil]
      rw [influence_mutUnit_pole]
      norm_num)

/-- C6 (counterexample): the volcanic mutation `mutC6` has strength `1 > 0`
and influence exactly `7/20 = 0.35` at each vertex of the face
`(1,0,0), (0,1,0), (-1,0,0)`, so its influence averaged over the face is
exactly `0.35`; the claim then demands lava, but the code's strict `> 0.35`
comparison leaves the face ground-coloured. -/
theorem face_lava_needs_strict_average :
    0 < mutC6.strength ∧ mutC6.type = MutationType.volcanic ∧
    (0.35 : ℝ) ≤ ((faceDirs noiseConst1 0 confFlat [mutC6] ⟨1, 0, 0⟩ ⟨0, 1, 0⟩
      ⟨-1, 0, 0⟩).map (fun dir => influence mutC6 dir / 3)).sum ∧
    faceColor noiseConst1 0 confFlat [mutC6] ⟨1, 0, 0⟩ ⟨0, 1, 0⟩ ⟨-1, 0, 0⟩ =
      FaceColor.ground := by
  have hvert : ∀ v : Vec3, Vec3.normalize v = v → Vec3.dot v ⟨0, 0, 1⟩ = 0 →
      displacedVertex noiseConst1 0 confFlat [mutC6] v =
        v.add (v.scale (7 / 20)) := by
    intro v hnv hdot
    rw [displacedVertex_eq,
      noiseDisplaced_noiseD_zero noiseConst1 0 confFlat _ rfl, hnv]
    simp only [List.filter_cons, List.filter_nil,
      show mutC6.type = MutationType.volcanic from rfl]
    simp only [decide_eq_true_eq, reduceCtorEq, if_true, if_false,
      List.map_cons, List.map_nil, List.sum_cons, List.sum_nil]
    rw [influence_mutC6_equator v hdot, show mutC6.strength = 1 from rfl]
    simp only [Vec3.add, Vec3.scale, Vec3.mk.injEq]
    norm_num
  have hd0 : displacedVertex noiseConst1 0 confFlat [mutC6] ⟨1, 0, 0⟩ =
      ⟨27 / 20, 0, 0⟩ := by
    rw [hvert ⟨1, 0, 0⟩ (normalize_xAxis 1 one_pos)
      (by
        show 1 * 0 + 0 * 0 + 0 * 1 = 0
        ring)]
    simp only [Vec3.add, Vec3.scale, Vec3.mk.injEq]
    norm_num
  have hd1 : displacedVertex noiseConst1 0 confFlat [mutC6] ⟨0, 1, 0⟩ =
      ⟨0, 27 / 20, 0⟩ := by
    rw [hvert ⟨0, 1, 0⟩ (normalize_yAxis 1 one_pos)
      (by
        show 0 * 0 + 1 * 0 + 0 * 1 = 0
        ring)]
    simp only [Vec3.add, Vec3.scale, Vec3.mk.injEq]
    norm_num
  have hd2 : displacedVertex noiseConst1 0 confFlat [mutC6] ⟨-1, 0, 0⟩ =
      ⟨-(27 / 20), 0, 0⟩ := by
    rw [hvert ⟨-1, 0, 0⟩ (normalize_negxAxis 1 one_pos)
      (by
        show -1 * 0 + 0 * 0 + 0 * 1 = 0
        ring)]
    simp only [Vec3.add, Vec3.scale, Vec3.mk.injEq]
    norm_num
  have hdirs : faceDirs noiseConst1 0 confFlat [mutC6] ⟨1, 0, 0⟩ ⟨0, 1, 0⟩
      ⟨-1, 0, 0⟩ = [⟨1, 0, 0⟩, ⟨0, 1, 0⟩, ⟨-1, 0, 0⟩] := by
    unfold faceDirs
    rw [hd0, hd1, hd2, normalize_xAxis (27 / 20) (by norm_num),
      normalize_yAxis (27 / 20) (by norm_num),
      normalize_negxAxis (27 / 20) (by norm_num)]
  have hi0 := influence_mutC6_equator ⟨1, 0, 0⟩
    (by
      show 1 * 0 + 0 * 0 + 0 * 1 = 0
      ring)
  have hi1 := influence_mutC6_equator ⟨0, 1, 0⟩
    (by
      show 0 * 0 + 1 * 0 + 0 * 1 = 0
      ring)
  have hi2 := influence_mutC6_equator ⟨-1, 0, 0⟩
    (by
      show -1 * 0 + 0 * 0 + 0 * 1 = 0
      ring)
  refine ⟨by norm_num [mutC6], rfl, ?_, ?_⟩
  · rw [hdirs]
    simp only [List.map_cons, List.map_nil, List.sum_cons, List.sum_nil]
    rw [hi0, hi1, hi2]
    norm_num
  · have hov : faceOverrideColor [mutC6] (faceDirs noiseConst1 0 confFlat
        [mutC6] ⟨1, 0, 0⟩ ⟨0, 1, 0⟩ ⟨-1, 0, 0⟩) = none := by
      rw [hdirs]
      have havg : faceAvgInfluences [mutC6]
          [⟨1, 0, 0⟩, ⟨0, 1, 0⟩, ⟨-1, 0, 0⟩] = (7 / 20, 0) := by
        rw [faceAvgInfluences_eq]
        simp only [List.filter_cons, List.filter_nil,
          show mutC6.type = MutationType.volcanic from rfl]
        simp only [decide_eq_true_eq, reduceCtorEq, if_true, if_false,
          List.map_cons, List.map_nil, List.sum_cons, List.sum_nil]
        rw [hi0, hi1, hi2]
        refine Prod.ext ?_ ?_ <;> norm_num
      unfold faceOverrideColor
      simp only [List.isEmpty_cons, Bool.false_eq_true, if_false]
      rw [havg]
      show (if ((7 / 20 : ℝ), (0 : ℝ)).1 > 0.35 then some FaceColor.lava
        else if ((7 / 20 : ℝ), (0 : ℝ)).2 > 0.35 then some FaceColor.ash
        else none) = none
      norm_num
    have hnw : ¬ faceIsWater noiseConst1 0 confFlat ⟨1, 0, 0⟩ ⟨0, 1, 0⟩
        ⟨-1, 0, 0⟩ := by
      unfold faceIsWater
      intro h
      have h1 := h.1
      have hraw : rawNoise noiseConst1 0 confFlat.noiseF ⟨1, 0, 0⟩ = 1 := by
        show ((1 : ℝ) + 1) / 2 = 1
        norm_num
      rw [hraw, show confFlat.noiseWaterTreshold = 0 from rfl] at h1
      exact absurd h1 (by norm_num)
    simp only [faceColor, hov]
    rw [if_neg hnw]

end Kosmokorn
